import Mathlib

/-!
Verification of the inventory-conservation logic of the colegiobackend
repository: the asset-assignment mutations (src/assets/schema.py,
src/assets/models.py) and the book-loan mutations (src/library/schema.py,
src/library/models.py), shallowly embedded as pure functions on an explicit
database state.

Quantities are embedded as `Int`, mirroring Python's unbounded integer
arithmetic; Django's `PositiveIntegerField` constraint is carried as a
hypothesis where a theorem needs it.  A mutation returns
`Option Err × State`: the error raised (if any) together with the database
state after the writes it performed.  Every validation in the source
precedes every write, so an error leaves the state unchanged; the embedding
makes that visible path by path.
-/

namespace Colegio

section Claves

variable {α : Type} {κ : Type} [BEq κ]

/-- Write-by-key: the row whose key matches is replaced, every other row is
kept.  This is the write half of an ORM `save()` against a table. -/
def updKey (key : α → κ) (b : α) (l : List α) : List α :=
  l.map (fun x => if key x == key b then b else x)

/-- Delete-by-key: every row whose key matches disappears.  This is an ORM
`delete()` (and, applied to a foreign-key column, an `on_delete=CASCADE`). -/
def delKey (key : α → κ) (i : κ) (l : List α) : List α :=
  l.filter (fun x => key x != i)

/-- Fetch-by-key: an ORM `objects.get(...)` / `filter(...).first()`. -/
def findKey (key : α → κ) (i : κ) (l : List α) : Option α :=
  l.find? (fun x => key x == i)

end Claves

/-- Error taxonomy of the mutations: `GraphQLError` raises and
`success=False` payloads, classified as the spec's taxonomy does. -/
inductive Err where
  | notFound
  | invalidArgument
  | insufficientStock
  | alreadyReturned
deriving DecidableEq, Repr

/-- `ESTADOS_BIEN` of src/assets/models.py. -/
inductive EstadoBien where
  | DISPONIBLE
  | EN_USO
  | DANADO
  | BAJA
deriving DecidableEq, Repr

/-- `ESTADOS_ASIGNACION` of src/assets/models.py. -/
inductive EstadoAsignacion where
  | ACTIVA
  | DEVUELTO
  | TRANSFERIDO
deriving DecidableEq, Repr

/-- The `Asset` model (src/assets/models.py), restricted to the fields the
custody mutations read or write. -/
structure Asset where
  id : Nat
  codigo_inventario : String
  cantidad : Int
  estado : EstadoBien
  responsable_actual : Option Nat
deriving DecidableEq, Repr

/-- The `AssetAssignment` model (src/assets/models.py), restricted to the
fields the custody mutations read or write.  `fecha_asignacion` is the
`auto_now_add` grant timestamp. -/
structure AssetAssignment where
  id : Nat
  bien_id : Nat
  usuario_id : Nat
  tipo_asignacion : String
  cantidad_asignada : Int
  estado : EstadoAsignacion
  observaciones : String
  fecha_asignacion : Nat
  fecha_devolucion_programada : Option Nat
deriving DecidableEq, Repr

/-- The `Libro` model (src/library/models.py), restricted to the fields the
loan mutations read or write. -/
structure Libro where
  id : Nat
  cantidad : Int
deriving DecidableEq, Repr

/-- The `PrestamoLibro` model (src/library/models.py).  `fecha_prestamo` is
the `auto_now_add` grant timestamp; `fecha_devolucion` is the optional due
date; `devuelto` is the returned flag. -/
structure PrestamoLibro where
  id : Nat
  libro_id : Nat
  usuario_id : Nat
  cantidad : Int
  fecha_prestamo : Nat
  fecha_devolucion : Option Nat
  prestado_por : Option Nat
  recibido_por : Option Nat
  observaciones : String
  devuelto : Bool
deriving DecidableEq, Repr

/-- The database state the mutations act on.  `usuarios` is the user table
(only existence is ever consulted); the `next_` counters model the
auto-incrementing primary keys. -/
structure State where
  assets : List Asset
  asignaciones : List AssetAssignment
  libros : List Libro
  prestamos : List PrestamoLibro
  usuarios : List Nat
  next_asg_id : Nat
  next_prestamo_id : Nat
deriving DecidableEq, Repr

/-- `Asset.objects.get(id=...)`. -/
def findAssetById (σ : State) (i : Nat) : Option Asset :=
  findKey Asset.id i σ.assets

/-- `Asset.objects.get(codigo_inventario=...)`. -/
def findAssetByCodigo (σ : State) (c : String) : Option Asset :=
  findKey Asset.codigo_inventario c σ.assets

/-- `bien.save()`: write the row with this primary key. -/
def saveAsset (b : Asset) (σ : State) : State :=
  { σ with assets := updKey Asset.id b σ.assets }

/-- `bien.delete()`: the row disappears and, through
`on_delete=models.CASCADE` on `AssetAssignment.bien`
(src/assets/models.py:156-162), so does every assignment referencing it. -/
def deleteAsset (i : Nat) (σ : State) : State :=
  { σ with assets := delKey Asset.id i σ.assets,
           asignaciones := delKey AssetAssignment.bien_id i σ.asignaciones }

/-- Row update of an existing `AssetAssignment` (the write half of
`save()`). -/
def writeAsignacion (a : AssetAssignment) (σ : State) : State :=
  { σ with asignaciones := updKey AssetAssignment.id a σ.asignaciones }

/-- Row insert of a new `AssetAssignment` (the write half of
`objects.create`). -/
def insertAsignacion (a : AssetAssignment) (σ : State) : State :=
  { σ with asignaciones := σ.asignaciones ++ [a],
           next_asg_id := σ.next_asg_id + 1 }

/-- `asignacion.delete()`. -/
def deleteAsignacion (i : Nat) (σ : State) : State :=
  { σ with asignaciones := delKey AssetAssignment.id i σ.asignaciones }

/-- `AssetAssignment.objects.filter(bien=..., usuario=..., estado='ACTIVA').first()`. -/
def findAsignacionActiva (σ : State) (bid uid : Nat) : Option AssetAssignment :=
  σ.asignaciones.find? (fun a =>
    a.bien_id == bid && a.usuario_id == uid && a.estado == EstadoAsignacion.ACTIVA)

/-- The asset-side effect of `AssetAssignment.save`
(src/assets/models.py:242-253): after writing the assignment, the related
asset's `estado` and `responsable_actual` are overwritten from the
assignment's `estado`. -/
def bienTrasSave (a : AssetAssignment) (b : Asset) : Asset :=
  match a.estado with
  | EstadoAsignacion.ACTIVA =>
      { b with estado := EstadoBien.EN_USO, responsable_actual := some a.usuario_id }
  | _ =>
      { b with estado := EstadoBien.DISPONIBLE, responsable_actual := none }

/-- `AssetAssignment.save` on an instance obtained from a `filter(...)`
query: the `bien` relation is not cached, so `self.bien` re-fetches the row
from the database before mutating and saving it. -/
def asgSaveRefetch (a : AssetAssignment) (σ : State) : State :=
  let σ₁ := writeAsignacion a σ
  match findAssetById σ₁ a.bien_id with
  | some fresh => saveAsset (bienTrasSave a fresh) σ₁
  | none => σ₁

/-- `AssetAssignment.objects.create(bien=bien, ...)` followed by the custom
`save`: here the `bien` relation IS cached (the in-memory object passed at
construction), so `save` mutates and saves that very object; the mutated
object is returned because the caller keeps using it. -/
def asgCreate (a : AssetAssignment) (bienCached : Asset) (σ : State) : State × Asset :=
  let σ₁ := insertAsignacion a σ
  let bien' := bienTrasSave a bienCached
  (saveAsset bien' σ₁, bien')

/-- `if not cantidad_asignada or cantidad_asignada <= 0: cantidad_asignada = 1`
(src/assets/schema.py:397-398): `None` and every non-positive value are
replaced by 1. -/
def normCantidad : Option Int → Int
  | none => 1
  | some v => if v ≤ 0 then 1 else v

/-- Python truthiness of an optional string: `if observaciones:`. -/
def pyTruthy : Option String → Bool
  | none => false
  | some s => !s.isEmpty

/-- The in-place update of an existing active assignment on a repeated
grant (src/assets/schema.py:435-442): quantity accumulates, notes append
behind `" | "`, the scheduled return date is overwritten when provided. -/
def asgConsolidada (ae : AssetAssignment) (cantidad : Int)
    (observaciones : Option String) (fdp : Option Nat) : AssetAssignment :=
  { ae with
    cantidad_asignada := ae.cantidad_asignada + cantidad,
    observaciones := if pyTruthy observaciones then
        ae.observaciones ++ " | " ++ observaciones.getD ""
      else ae.observaciones,
    fecha_devolucion_programada :=
      if fdp.isSome then fdp else ae.fecha_devolucion_programada }

/-- The fresh assignment created on a first grant
(src/assets/schema.py:446-455); `fecha_asignacion` is `auto_now_add`. -/
def nuevaAsignacion (σ : State) (bien_id usuario_id : Nat) (tipo : String)
    (cantidad : Int) (observaciones : Option String) (fdp : Option Nat)
    (now : Nat) : AssetAssignment :=
  { id := σ.next_asg_id,
    bien_id := bien_id,
    usuario_id := usuario_id,
    tipo_asignacion := tipo,
    cantidad_asignada := cantidad,
    estado := EstadoAsignacion.ACTIVA,
    observaciones := observaciones.getD "",
    fecha_asignacion := now,
    fecha_devolucion_programada := fdp }

/-- `CrearAsignacion.mutate` (src/assets/schema.py:389-465), statement by
statement.  `now` stands for `timezone.now()`. -/
def crearAsignacion (σ : State) (bien_id usuario_id : Nat) (tipo_asignacion : String)
    (cantidad_asignada : Option Int) (observaciones : Option String)
    (fecha_devolucion_programada : Option Nat) (now : Nat) : Option Err × State :=
  let cantidad := normCantidad cantidad_asignada
  match findAssetById σ bien_id with
  | none => (some Err.notFound, σ)
  | some bien =>
    if !(σ.usuarios.contains usuario_id) then (some Err.notFound, σ)
    else if !(tipo_asignacion == "PRESTAMO" || tipo_asignacion == "ASIGNACION") then
      (some Err.invalidArgument, σ)
    else if bien.cantidad < cantidad then (some Err.insufficientStock, σ)
    else
      match findAsignacionActiva σ bien_id usuario_id with
      | some ae =>
        let ae' := asgConsolidada ae cantidad observaciones fecha_devolucion_programada
        let σ₁ := asgSaveRefetch ae' σ
        -- the final `bien.save()` writes the mutate-local object, whose
        -- estado/responsable_actual are stale pre-save values
        (none, saveAsset { bien with cantidad := bien.cantidad - cantidad } σ₁)
      | none =>
        let nuevo := nuevaAsignacion σ bien_id usuario_id tipo_asignacion cantidad
          observaciones fecha_devolucion_programada now
        let r := asgCreate nuevo bien σ
        (none, saveAsset { r.2 with cantidad := r.2.cantidad - cantidad } r.1)

/-- `DevolverBien.mutate` (src/assets/schema.py:481-529).  The source also
assigns `asignacion.fecha_devolucion` and (conditionally)
`asignacion.observaciones_devolucion`, but neither is a field of the
`AssetAssignment` model, so neither assignment is ever persisted; they are
therefore no-ops on the database state. -/
def devolverBien (σ : State) (usuario_id : Nat) (codigo_bien : String)
    (cantidad : Int) : Option Err × State :=
  match findAssetByCodigo σ codigo_bien with
  | none => (some Err.notFound, σ)
  | some bien =>
    match findAsignacionActiva σ bien.id usuario_id with
    | none => (some Err.notFound, σ)
    | some asg =>
      if cantidad ≤ 0 then (some Err.invalidArgument, σ)
      else if asg.cantidad_asignada < cantidad then (some Err.invalidArgument, σ)
      else
        let asg' := { asg with cantidad_asignada := asg.cantidad_asignada - cantidad }
        let σ₁ := saveAsset { bien with cantidad := bien.cantidad + cantidad } σ
        if asg'.cantidad_asignada == 0 then
          (none, deleteAsignacion asg'.id σ₁)
        else
          (none, asgSaveRefetch asg' σ₁)

/-- `EliminarBien.mutate` (src/assets/schema.py:347-367).  No sign check on
`cantidad`: a non-positive value flows straight into the comparison and the
subtraction. -/
def eliminarBien (σ : State) (codigo_inventario : String)
    (cantidad : Option Int) : Option Err × State :=
  match findAssetByCodigo σ codigo_inventario with
  | none => (some Err.notFound, σ)
  | some bien =>
    match cantidad with
    | none => (none, deleteAsset bien.id σ)
    | some c =>
      if bien.cantidad ≤ c then (none, deleteAsset bien.id σ)
      else (none, saveAsset { bien with cantidad := bien.cantidad - c } σ)

/-- `Libro.objects.get(pk=...)`. -/
def findLibro (σ : State) (i : Nat) : Option Libro :=
  findKey Libro.id i σ.libros

/-- `libro.save()`. -/
def saveLibro (l : Libro) (σ : State) : State :=
  { σ with libros := updKey Libro.id l σ.libros }

/-- `libro.delete()`: cascades to every `PrestamoLibro` referencing it
(`on_delete=models.CASCADE`, src/library/models.py:79-85). -/
def deleteLibro (i : Nat) (σ : State) : State :=
  { σ with libros := delKey Libro.id i σ.libros,
           prestamos := delKey PrestamoLibro.libro_id i σ.prestamos }

/-- `prestamo.save()` on an existing row. -/
def writePrestamo (p : PrestamoLibro) (σ : State) : State :=
  { σ with prestamos := updKey PrestamoLibro.id p σ.prestamos }

/-- `PrestamoLibro.objects.create(...)`. -/
def insertPrestamo (p : PrestamoLibro) (σ : State) : State :=
  { σ with prestamos := σ.prestamos ++ [p],
           next_prestamo_id := σ.next_prestamo_id + 1 }

/-- `PrestamoLibro.objects.filter(usuario=..., libro=..., devuelto=False).first()`. -/
def findPrestamoActivo (σ : State) (uid lid : Nat) : Option PrestamoLibro :=
  σ.prestamos.find? (fun p => p.usuario_id == uid && p.libro_id == lid && !p.devuelto)

/-- `PrestamoLibro.objects.get(pk=...)`. -/
def findPrestamoById (σ : State) (i : Nat) : Option PrestamoLibro :=
  findKey PrestamoLibro.id i σ.prestamos

/-- The in-place update of an existing unreturned loan on a repeated grant
(src/library/schema.py:259-270): quantity accumulates, the grant timestamp
is reassigned to `timezone.now()`, notes append behind a timestamp header. -/
def prestamoConsolidado (pe : PrestamoLibro) (cantidad : Int)
    (observaciones : Option String) (now : Nat) : PrestamoLibro :=
  { pe with
    cantidad := pe.cantidad + cantidad,
    fecha_prestamo := now,
    observaciones := if pyTruthy observaciones then
        (if !pe.observaciones.isEmpty then
          pe.observaciones ++ "\n[" ++ toString now ++ "] " ++ observaciones.getD ""
         else observaciones.getD "")
      else pe.observaciones }

/-- The fresh loan created on a first grant (src/library/schema.py:284-291);
`fecha_prestamo` is `auto_now_add`. -/
def nuevoPrestamo (σ : State) (libro_id usuario_id : Nat) (cantidad : Int)
    (fecha_devolucion : Option Nat) (observaciones : Option String)
    (prestado_por : Nat) (now : Nat) : PrestamoLibro :=
  { id := σ.next_prestamo_id,
    libro_id := libro_id,
    usuario_id := usuario_id,
    cantidad := cantidad,
    fecha_prestamo := now,
    fecha_devolucion := fecha_devolucion,
    prestado_por := some prestado_por,
    recibido_por := none,
    observaciones := observaciones.getD "",
    devuelto := false }

/-- `CrearPrestamo.mutate` (src/library/schema.py:225-302).  On
consolidation the source reassigns `fecha_prestamo = timezone.now()`; since
`auto_now_add` only takes effect on insert, the reassigned value is what the
update persists. -/
def crearPrestamo (σ : State) (libro_id usuario_id : Nat) (cantidad : Int)
    (fecha_devolucion : Option Nat) (observaciones : Option String)
    (prestado_por : Nat) (now : Nat) : Option Err × State :=
  if cantidad ≤ 0 then (some Err.invalidArgument, σ)
  else
    match findLibro σ libro_id with
    | none => (some Err.notFound, σ)
    | some libro =>
      if !(σ.usuarios.contains usuario_id) then (some Err.notFound, σ)
      else if libro.cantidad < cantidad then (some Err.insufficientStock, σ)
      else
        match findPrestamoActivo σ usuario_id libro_id with
        | some pe =>
          let pe' := prestamoConsolidado pe cantidad observaciones now
          let σ₁ := writePrestamo pe' σ
          (none, saveLibro { libro with cantidad := libro.cantidad - cantidad } σ₁)
        | none =>
          let nuevo := nuevoPrestamo σ libro_id usuario_id cantidad fecha_devolucion
            observaciones prestado_por now
          let σ₁ := insertPrestamo nuevo σ
          (none, saveLibro { libro with cantidad := libro.cantidad - cantidad } σ₁)

/-- `DevolverLibro.mutate` (src/library/schema.py:314-377).  On a full
return only `devuelto` and `recibido_por` change; the model has no
return-timestamp field. -/
def devolverLibro (σ : State) (prestamo_id : Nat) (cantidad : Option Int)
    (recibido_por : Nat) (now : Nat) : Option Err × State :=
  match findPrestamoById σ prestamo_id with
  | none => (some Err.notFound, σ)
  | some prestamo =>
    if prestamo.devuelto then (some Err.alreadyReturned, σ)
    else
      let c := cantidad.getD prestamo.cantidad
      if c ≤ 0 then (some Err.invalidArgument, σ)
      else if prestamo.cantidad < c then (some Err.invalidArgument, σ)
      else
        match findLibro σ prestamo.libro_id with
        | none => (some Err.notFound, σ)
        | some libro =>
          let σ₁ := saveLibro { libro with cantidad := libro.cantidad + c } σ
          if c == prestamo.cantidad then
            (none, writePrestamo
              { prestamo with devuelto := true, recibido_por := some recibido_por } σ₁)
          else
            (none, writePrestamo
              { prestamo with
                cantidad := prestamo.cantidad - c,
                recibido_por := some recibido_por,
                observaciones := prestamo.observaciones ++ "\n[" ++ toString now
                  ++ "] devolucion parcial de " ++ toString c } σ₁)

/-- `EliminarCantidadLibro.mutate` (src/library/schema.py:166-182). -/
def eliminarCantidadLibro (σ : State) (libro_id : Nat) (cantidad : Int) :
    Option Err × State :=
  match findLibro σ libro_id with
  | none => (some Err.notFound, σ)
  | some libro =>
    if cantidad ≤ 0 then (some Err.invalidArgument, σ)
    else
      let c' := libro.cantidad - cantidad
      if c' ≤ 0 then (none, deleteLibro libro.id σ)
      else (none, saveLibro { libro with cantidad := c' } σ)

/-- A grant or return operation, with its arguments: the four custody
mutations the conservation claim quantifies over. -/
inductive Op where
  | asignar (bien_id usuario_id : Nat) (tipo : String) (cantidad : Option Int)
      (observaciones : Option String) (fdp : Option Nat) (now : Nat)
  | devolverB (usuario_id : Nat) (codigo : String) (cantidad : Int)
  | prestar (libro_id usuario_id : Nat) (cantidad : Int) (fdev : Option Nat)
      (observaciones : Option String) (actor now : Nat)
  | devolverL (prestamo_id : Nat) (cantidad : Option Int) (actor now : Nat)

/-- Run one operation; a raised error rolls the request back, so the state
after a failed operation is the state before it (every validation in the
source precedes every write). -/
def applyOp (σ : State) : Op → State
  | Op.asignar b u t c o f n => (crearAsignacion σ b u t c o f n).2
  | Op.devolverB u cod c => (devolverBien σ u cod c).2
  | Op.prestar l u c fd o a n => (crearPrestamo σ l u c fd o a n).2
  | Op.devolverL p c a n => (devolverLibro σ p c a n).2

/-- Run a sequence of grant/return operations. -/
def applyOps (σ : State) (ops : List Op) : State :=
  ops.foldl applyOp σ

/-- Units of asset `bid` held by one assignment: its quantity when the
record is an Active custody of `bid`, zero otherwise. -/
def aporteAsg (bid : Nat) (a : AssetAssignment) : Int :=
  if a.bien_id = bid ∧ a.estado = EstadoAsignacion.ACTIVA then a.cantidad_asignada else 0

/-- Sum of the quantities of the active assignments of asset `bid`. -/
def activoTotalAsg (σ : State) (bid : Nat) : Int :=
  (σ.asignaciones.map (aporteAsg bid)).sum

/-- The conserved ledger of an asset: on-hand stock plus units out on
active custody (`none` when the asset does not exist). -/
def assetLedger (σ : State) (bid : Nat) : Option Int :=
  (findAssetById σ bid).map (fun b => b.cantidad + activoTotalAsg σ bid)

/-- Units of book `lid` held by one loan: its quantity when the loan is an
unreturned loan of `lid`, zero otherwise. -/
def aportePrestamo (lid : Nat) (p : PrestamoLibro) : Int :=
  if p.libro_id = lid ∧ p.devuelto = false then p.cantidad else 0

/-- Sum of the quantities of the unreturned loans of book `lid`. -/
def activoTotalPrestamo (σ : State) (lid : Nat) : Int :=
  (σ.prestamos.map (aportePrestamo lid)).sum

/-- The conserved ledger of a book: on-hand stock plus copies out on
unreturned loans (`none` when the book does not exist). -/
def libroLedger (σ : State) (lid : Nat) : Option Int :=
  (findLibro σ lid).map (fun l => l.cantidad + activoTotalPrestamo σ lid)

/-- Database well-formedness: primary keys are unique and below the
auto-increment counters. -/
def WF (σ : State) : Prop :=
  (σ.assets.map Asset.id).Nodup ∧
  (σ.asignaciones.map AssetAssignment.id).Nodup ∧
  (∀ a ∈ σ.asignaciones, a.id < σ.next_asg_id) ∧
  (σ.prestamos.map PrestamoLibro.id).Nodup ∧
  (∀ p ∈ σ.prestamos, p.id < σ.next_prestamo_id)

instance (σ : State) : Decidable (WF σ) := by
  unfold WF; infer_instance

/-- `AssetAssignment.objects.get(pk=...)`: row lookup by primary key, used
to state which record an operation touched. -/
def findAsignacionById (σ : State) (i : Nat) : Option AssetAssignment :=
  findKey AssetAssignment.id i σ.asignaciones

/-- A small concrete database: one asset (id 1, code "B1", 5 units,
available), one book (id 1, 5 copies), one user (id 7), no custody. -/
def σEj : State :=
  { assets := [{ id := 1, codigo_inventario := "B1", cantidad := 5,
                 estado := EstadoBien.DISPONIBLE, responsable_actual := none }],
    asignaciones := [],
    libros := [{ id := 1, cantidad := 5 }],
    prestamos := [],
    usuarios := [7],
    next_asg_id := 10,
    next_prestamo_id := 10 }

/-- As `σEj`, but 2 of the 5 asset units are out on an active assignment to
user 7 and 2 of the 5 copies of the book are out on an unreturned loan to
user 7 (both custody rows have primary key 10). -/
def σEjAsignado : State :=
  { assets := [{ id := 1, codigo_inventario := "B1", cantidad := 3,
                 estado := EstadoBien.EN_USO, responsable_actual := some 7 }],
    asignaciones := [{ id := 10, bien_id := 1, usuario_id := 7,
                       tipo_asignacion := "PRESTAMO", cantidad_asignada := 2,
                       estado := EstadoAsignacion.ACTIVA, observaciones := "",
                       fecha_asignacion := 100,
                       fecha_devolucion_programada := none }],
    libros := [{ id := 1, cantidad := 3 }],
    prestamos := [{ id := 10, libro_id := 1, usuario_id := 7, cantidad := 2,
                    fecha_prestamo := 100, fecha_devolucion := none,
                    prestado_por := some 9, recibido_por := none,
                    observaciones := "", devuelto := false }],
    usuarios := [7],
    next_asg_id := 11,
    next_prestamo_id := 11 }

/-- As `σEj`, but the asset has been flagged damaged (`DANADO`), an
externally set terminal state. -/
def σEjDanado : State :=
  { assets := [{ id := 1, codigo_inventario := "B1", cantidad := 5,
                 estado := EstadoBien.DANADO, responsable_actual := none }],
    asignaciones := [],
    libros := [{ id := 1, cantidad := 5 }],
    prestamos := [],
    usuarios := [7],
    next_asg_id := 10,
    next_prestamo_id := 10 }

/-- A concrete grant/return sequence: assign 3 asset units to user 7,
return 1, loan 2 book copies to user 7, return 1 of them. -/
def opsEj : List Op :=
  [Op.asignar 1 7 "PRESTAMO" (some 3) none none 100,
   Op.devolverB 7 "B1" 1,
   Op.prestar 1 7 2 none none 9 100,
   Op.devolverL 10 (some 1) 9 101]


section ClavesBasicas

variable {α : Type} {κ : Type} [BEq κ]

theorem updKey_cons (key : α → κ) (b x : α) (t : List α) :
    updKey key b (x :: t) = (if key x == key b then b else x) :: updKey key b t := rfl

theorem delKey_cons (key : α → κ) (i : κ) (x : α) (t : List α) :
    delKey key i (x :: t) = if key x != i then x :: delKey key i t else delKey key i t := by
  simp only [delKey, List.filter_cons]

theorem findKey_cons (key : α → κ) (i : κ) (x : α) (t : List α) :
    findKey key i (x :: t) = if key x == i then some x else findKey key i t := by
  simp only [findKey]
  by_cases h : (key x == i) = true
  · rw [if_pos h, @List.find?_cons_of_pos α (fun y => key y == i) x t h]
  · rw [if_neg h, @List.find?_cons_of_neg α (fun y => key y == i) x t h]

theorem sum_map_append_one (f : α → Int) (l : List α) (a : α) :
    ((l ++ [a]).map f).sum = (l.map f).sum + f a := by
  simp [List.map_append]

theorem sum_map_zero (f : α → Int) (l : List α) (h : ∀ x ∈ l, f x = 0) :
    (l.map f).sum = 0 := by
  induction l with
  | nil => rfl
  | cons x t ih =>
    simp only [List.map_cons, List.sum_cons, h x (List.mem_cons_self x t), zero_add]
    exact ih (fun y hy => h y (List.mem_cons_of_mem x hy))

theorem nodup_key_delKey (key : α → κ) (i : κ) (l : List α)
    (h : (l.map key).Nodup) : ((delKey key i l).map key).Nodup :=
  ((List.filter_sublist l).map key).nodup h

theorem mem_of_mem_delKey (key : α → κ) (i : κ) (l : List α) {x : α}
    (h : x ∈ delKey key i l) : x ∈ l :=
  List.mem_of_mem_filter h

theorem mem_updKey_of_mem (key : α → κ) (b : α) (l : List α) {x : α}
    (h : x ∈ updKey key b l) : x ∈ l ∨ x = b := by
  simp only [updKey, List.mem_map] at h
  rcases h with ⟨y, hy, hxy⟩
  by_cases hk : (key y == key b) = true
  · right; rw [if_pos hk] at hxy; exact hxy.symm
  · left; rw [if_neg hk] at hxy; exact hxy ▸ hy

theorem findKey_mem {key : α → κ} {i : κ} {l : List α} {x : α}
    (h : findKey key i l = some x) : x ∈ l :=
  List.mem_of_find?_eq_some h

end ClavesBasicas

section ClavesLeyes

variable {α : Type} {κ : Type} [BEq κ] [LawfulBEq κ]

theorem findKey_key {key : α → κ} {i : κ} {l : List α} {x : α}
    (h : findKey key i l = some x) : key x = i := by
  have h' : List.find? (fun y => key y == i) l = some x := h
  have h2 : ((fun y => key y == i) x) = true :=
    @List.find?_some α (fun y => key y == i) x l h'
  exact eq_of_beq h2

theorem findKey_eq_none {key : α → κ} {i : κ} {l : List α}
    (h : findKey key i l = none) : ∀ x ∈ l, ¬ key x = i := by
  intro x hx
  have h' : List.find? (fun y => key y == i) l = none := h
  have h2 := List.find?_eq_none.mp h' x hx
  simpa using h2

theorem updKey_map_key (key : α → κ) (b : α) (l : List α) :
    (updKey key b l).map key = l.map key := by
  induction l with
  | nil => rfl
  | cons x t ih =>
    rw [updKey_cons, List.map_cons, List.map_cons, ih]
    by_cases hx : (key x == key b) = true
    · rw [if_pos hx, eq_of_beq hx]
    · rw [if_neg hx]

theorem findKey_updKey_self (key : α → κ) (b : α) (l : List α)
    (h : key b ∈ l.map key) :
    findKey key (key b) (updKey key b l) = some b := by
  induction l with
  | nil => simp at h
  | cons x t ih =>
    rw [updKey_cons]
    rw [List.map_cons] at h
    by_cases hx : (key x == key b) = true
    · rw [if_pos hx, findKey_cons, if_pos (by simp)]
    · rw [if_neg hx, findKey_cons, if_neg (by simpa using fun hh => hx (beq_iff_eq.mpr hh))]
      apply ih
      rcases List.mem_cons.mp h with h1 | h1
      · exact absurd (beq_iff_eq.mpr h1.symm) hx
      · exact h1

theorem findKey_updKey_ne (key : α → κ) (b : α) (l : List α) (j : κ)
    (h : ¬ j = key b) :
    findKey key j (updKey key b l) = findKey key j l := by
  induction l with
  | nil => rfl
  | cons x t ih =>
    rw [updKey_cons, findKey_cons]
    by_cases hx : (key x == key b) = true
    · have hbj : ¬ (key b == j) = true := fun hh => h (eq_of_beq hh).symm
      have hxj : ¬ (key x == j) = true := fun hh =>
        hbj (by rw [← eq_of_beq hx]; exact hh)
      rw [if_pos hx, if_neg hbj, findKey_cons, if_neg hxj, ih]
    · rw [if_neg hx, findKey_cons]
      by_cases hxj : (key x == j) = true
      · rw [if_pos hxj, if_pos hxj]
      · rw [if_neg hxj, if_neg hxj, ih]

theorem findKey_of_mem_nodup (key : α → κ) (l : List α) (a : α)
    (hnd : (l.map key).Nodup) (ha : a ∈ l) : findKey key (key a) l = some a := by
  induction l with
  | nil => simp at ha
  | cons x t ih =>
    rw [List.map_cons, List.nodup_cons] at hnd
    rcases List.mem_cons.mp ha with h1 | h1
    · subst h1
      rw [findKey_cons, if_pos (by simp)]
    · have hxa : ¬ key x = key a := fun hh => hnd.1 (hh ▸ List.mem_map_of_mem key h1)
      rw [findKey_cons, if_neg (by simpa using fun hh => hxa (by rw [hh])), ih hnd.2 h1]

theorem updKey_eq_of_not_mem (key : α → κ) (b : α) (l : List α)
    (h : ∀ x ∈ l, ¬ key x = key b) : updKey key b l = l := by
  induction l with
  | nil => rfl
  | cons x t ih =>
    rw [updKey_cons, if_neg (by simpa using h x (List.mem_cons_self x t)),
        ih (fun y hy => h y (List.mem_cons_of_mem x hy))]

theorem sum_map_updKey (key : α → κ) (f : α → Int) (b a₀ : α) (l : List α)
    (hnd : (l.map key).Nodup) (ha : a₀ ∈ l) (hk : key b = key a₀) :
    ((updKey key b l).map f).sum = (l.map f).sum + f b - f a₀ := by
  induction l with
  | nil => simp at ha
  | cons x t ih =>
    rw [List.map_cons, List.nodup_cons] at hnd
    rw [updKey_cons]
    rcases List.mem_cons.mp ha with h1 | h1
    · subst h1
      rw [if_pos (beq_iff_eq.mpr hk.symm),
          updKey_eq_of_not_mem key b t (fun y hy hyb => hnd.1 (by
            have hya : key y = key a₀ := by rw [hyb, hk]
            exact hya ▸ List.mem_map_of_mem key hy))]
      simp only [List.map_cons, List.sum_cons]
      ring
    · have hxa : ¬ key x = key a₀ := fun hh => hnd.1 (hh ▸ List.mem_map_of_mem key h1)
      rw [if_neg (by simpa [hk] using hxa)]
      simp only [List.map_cons, List.sum_cons]
      rw [ih hnd.2 h1]
      ring

theorem sum_map_delKey (key : α → κ) (f : α → Int) (a₀ : α) (l : List α)
    (hnd : (l.map key).Nodup) (ha : a₀ ∈ l) :
    ((delKey key (key a₀) l).map f).sum = (l.map f).sum - f a₀ := by
  induction l with
  | nil => simp at ha
  | cons x t ih =>
    rw [List.map_cons, List.nodup_cons] at hnd
    rw [delKey_cons]
    rcases List.mem_cons.mp ha with h1 | h1
    · subst h1
      rw [if_neg (by simp)]
      have ht : delKey key (key a₀) t = t := by
        apply List.filter_eq_self.mpr
        intro y hy
        simp only [bne_iff_ne, ne_eq]
        exact fun hh => hnd.1 (hh ▸ List.mem_map_of_mem key hy)
      rw [ht]
      simp only [List.map_cons, List.sum_cons]
      ring
    · have hxa : ¬ key x = key a₀ := fun hh => hnd.1 (hh ▸ List.mem_map_of_mem key h1)
      rw [if_pos (by simpa using hxa)]
      simp only [List.map_cons, List.sum_cons]
      rw [ih hnd.2 h1]
      ring

end ClavesLeyes



theorem findAsignacionActiva_facts {σ : State} {bid uid : Nat} {a : AssetAssignment}
    (h : findAsignacionActiva σ bid uid = some a) :
    a ∈ σ.asignaciones ∧ a.bien_id = bid ∧ a.usuario_id = uid ∧
      a.estado = EstadoAsignacion.ACTIVA := by
  refine ⟨List.mem_of_find?_eq_some h, ?_⟩
  have h2 := @List.find?_some AssetAssignment
    (fun x => x.bien_id == bid && x.usuario_id == uid && x.estado == EstadoAsignacion.ACTIVA)
    a σ.asignaciones h
  simp at h2
  exact ⟨h2.1.1, h2.1.2, h2.2⟩

theorem findAsignacionActiva_ninguna {σ : State} {bid uid : Nat}
    (h : findAsignacionActiva σ bid uid = none) :
    ∀ a ∈ σ.asignaciones,
      ¬(a.bien_id = bid ∧ a.usuario_id = uid ∧ a.estado = EstadoAsignacion.ACTIVA) := by
  intro a ha
  have h2 := List.find?_eq_none.mp h a ha
  simpa using h2

theorem findPrestamoActivo_facts {σ : State} {uid lid : Nat} {p : PrestamoLibro}
    (h : findPrestamoActivo σ uid lid = some p) :
    p ∈ σ.prestamos ∧ p.usuario_id = uid ∧ p.libro_id = lid ∧ p.devuelto = false := by
  refine ⟨List.mem_of_find?_eq_some h, ?_⟩
  have h2 := @List.find?_some PrestamoLibro
    (fun x => x.usuario_id == uid && x.libro_id == lid && !x.devuelto)
    p σ.prestamos h
  simp at h2
  exact ⟨h2.1.1, h2.1.2, h2.2⟩

theorem findPrestamoActivo_ninguno {σ : State} {uid lid : Nat}
    (h : findPrestamoActivo σ uid lid = none) :
    ∀ p ∈ σ.prestamos,
      ¬(p.usuario_id = uid ∧ p.libro_id = lid ∧ p.devuelto = false) := by
  intro p hp
  have h2 := List.find?_eq_none.mp h p hp
  simp at h2
  intro hc
  exact absurd (h2 hc.1 hc.2.1) (by simp [hc.2.2])

-- ==============================
-- asset branch shapes
-- ==============================

theorem crearAsignacion_nueva (σ : State) (B u : Nat) (t : String) (c : Option Int)
    (obs : Option String) (fdp : Option Nat) (now : Nat) (bien : Asset)
    (hb : findAssetById σ B = some bien)
    (hu : σ.usuarios.contains u = true)
    (ht : (t == "PRESTAMO" || t == "ASIGNACION") = true)
    (hstock : ¬ bien.cantidad < normCantidad c)
    (hae : findAsignacionActiva σ B u = none) :
    crearAsignacion σ B u t c obs fdp now =
      (none,
        saveAsset { bien with
                      cantidad := bien.cantidad - normCantidad c,
                      estado := EstadoBien.EN_USO,
                      responsable_actual := some u }
          (saveAsset { bien with estado := EstadoBien.EN_USO, responsable_actual := some u }
            (insertAsignacion (nuevaAsignacion σ B u t (normCantidad c) obs fdp now) σ))) := by
  simp only [crearAsignacion, hb, hu, ht, hae, Bool.not_true, Bool.false_eq_true,
    if_false, if_neg hstock, asgCreate, bienTrasSave, nuevaAsignacion]

theorem crearAsignacion_consolida (σ : State) (B u : Nat) (t : String) (c : Option Int)
    (obs : Option String) (fdp : Option Nat) (now : Nat) (bien : Asset) (ae : AssetAssignment)
    (hb : findAssetById σ B = some bien)
    (hu : σ.usuarios.contains u = true)
    (ht : (t == "PRESTAMO" || t == "ASIGNACION") = true)
    (hstock : ¬ bien.cantidad < normCantidad c)
    (hae : findAsignacionActiva σ B u = some ae) :
    crearAsignacion σ B u t c obs fdp now =
      (none,
        saveAsset { bien with cantidad := bien.cantidad - normCantidad c }
          (saveAsset { bien with estado := EstadoBien.EN_USO, responsable_actual := some u }
            (writeAsignacion (asgConsolidada ae (normCantidad c) obs fdp) σ))) := by
  have hid : ae.bien_id = B := (findAsignacionActiva_facts hae).2.1
  have husr : ae.usuario_id = u := (findAsignacionActiva_facts hae).2.2.1
  have hact : ae.estado = EstadoAsignacion.ACTIVA := (findAsignacionActiva_facts hae).2.2.2
  have hre : findAssetById
      (writeAsignacion (asgConsolidada ae (normCantidad c) obs fdp) σ)
      (asgConsolidada ae (normCantidad c) obs fdp).bien_id = some bien := by
    show findAssetById σ ae.bien_id = some bien
    rw [hid]; exact hb
  simp only [crearAsignacion, hb, hu, ht, hae, Bool.not_true, Bool.false_eq_true,
    if_false, if_neg hstock, asgSaveRefetch, hre, bienTrasSave]
  simp [asgConsolidada, hact, husr]

theorem devolverBien_total (σ : State) (u : Nat) (cod : String) (cantidad : Int)
    (bien : Asset) (asg : AssetAssignment)
    (hb : findAssetByCodigo σ cod = some bien)
    (ha : findAsignacionActiva σ bien.id u = some asg)
    (hpos : 0 < cantidad)
    (heq : asg.cantidad_asignada = cantidad) :
    devolverBien σ u cod cantidad =
      (none, deleteAsignacion asg.id
        (saveAsset { bien with cantidad := bien.cantidad + cantidad } σ)) := by
  have h0 : ¬ cantidad ≤ 0 := not_le.mpr hpos
  have h1 : ¬ asg.cantidad_asignada < cantidad := by rw [heq]; exact lt_irrefl _
  simp only [devolverBien, hb, ha, if_neg h0, if_neg h1, heq]
  simp

theorem devolverBien_parcial (σ : State) (u : Nat) (cod : String) (cantidad : Int)
    (bien : Asset) (asg : AssetAssignment)
    (hb : findAssetByCodigo σ cod = some bien)
    (ha : findAsignacionActiva σ bien.id u = some asg)
    (hpos : 0 < cantidad)
    (hlt : cantidad < asg.cantidad_asignada) :
    devolverBien σ u cod cantidad =
      (none,
        saveAsset { bien with
                      cantidad := bien.cantidad + cantidad,
                      estado := EstadoBien.EN_USO,
                      responsable_actual := some u }
          (writeAsignacion { asg with cantidad_asignada := asg.cantidad_asignada - cantidad }
            (saveAsset { bien with cantidad := bien.cantidad + cantidad } σ))) := by
  have h0 : ¬ cantidad ≤ 0 := not_le.mpr hpos
  have h1 : ¬ asg.cantidad_asignada < cantidad := not_lt.mpr (le_of_lt hlt)
  have h2 : ¬ (asg.cantidad_asignada - cantidad = 0) := by omega
  have hid : asg.bien_id = bien.id := (findAsignacionActiva_facts ha).2.1
  have husr : asg.usuario_id = u := (findAsignacionActiva_facts ha).2.2.1
  have hact : asg.estado = EstadoAsignacion.ACTIVA := (findAsignacionActiva_facts ha).2.2.2
  have hmem : bien ∈ σ.assets := findKey_mem hb
  have hre : findAssetById
      (writeAsignacion { asg with cantidad_asignada := asg.cantidad_asignada - cantidad }
        (saveAsset { bien with cantidad := bien.cantidad + cantidad } σ))
      ({ asg with cantidad_asignada := asg.cantidad_asignada - cantidad }).bien_id =
      some { bien with cantidad := bien.cantidad + cantidad } := by
    show findKey Asset.id asg.bien_id
        (updKey Asset.id { bien with cantidad := bien.cantidad + cantidad } σ.assets) =
      some { bien with cantidad := bien.cantidad + cantidad }
    rw [hid]
    have hkm : Asset.id { bien with cantidad := bien.cantidad + cantidad } ∈
        List.map Asset.id σ.assets := by
      show bien.id ∈ List.map Asset.id σ.assets
      exact List.mem_map_of_mem Asset.id hmem
    exact findKey_updKey_self Asset.id
      { bien with cantidad := bien.cantidad + cantidad } σ.assets hkm
  simp only [devolverBien, hb, ha, if_neg h0, if_neg h1, asgSaveRefetch, hre, bienTrasSave]
  simp only [beq_iff_eq, if_neg h2]
  simp [hact, husr]



-- ==============================
-- library branch shapes
-- ==============================

theorem crearPrestamo_nuevo (σ : State) (L u : Nat) (cantidad : Int)
    (fdev : Option Nat) (obs : Option String) (actor now : Nat) (libro : Libro)
    (hpos : 0 < cantidad)
    (hl : findLibro σ L = some libro)
    (hu : σ.usuarios.contains u = true)
    (hstock : ¬ libro.cantidad < cantidad)
    (hpe : findPrestamoActivo σ u L = none) :
    crearPrestamo σ L u cantidad fdev obs actor now =
      (none, saveLibro { libro with cantidad := libro.cantidad - cantidad }
        (insertPrestamo (nuevoPrestamo σ L u cantidad fdev obs actor now) σ)) := by
  have h0 : ¬ cantidad ≤ 0 := not_le.mpr hpos
  simp only [crearPrestamo, if_neg h0, hl, hu, Bool.not_true, Bool.false_eq_true,
    if_false, if_neg hstock, hpe]

theorem crearPrestamo_consolida (σ : State) (L u : Nat) (cantidad : Int)
    (fdev : Option Nat) (obs : Option String) (actor now : Nat)
    (libro : Libro) (pe : PrestamoLibro)
    (hpos : 0 < cantidad)
    (hl : findLibro σ L = some libro)
    (hu : σ.usuarios.contains u = true)
    (hstock : ¬ libro.cantidad < cantidad)
    (hpe : findPrestamoActivo σ u L = some pe) :
    crearPrestamo σ L u cantidad fdev obs actor now =
      (none, saveLibro { libro with cantidad := libro.cantidad - cantidad }
        (writePrestamo (prestamoConsolidado pe cantidad obs now) σ)) := by
  have h0 : ¬ cantidad ≤ 0 := not_le.mpr hpos
  simp only [crearPrestamo, if_neg h0, hl, hu, Bool.not_true, Bool.false_eq_true,
    if_false, if_neg hstock, hpe]

theorem devolverLibro_total (σ : State) (pid : Nat) (cantidad : Option Int)
    (actor now : Nat) (p : PrestamoLibro) (libro : Libro)
    (hp : findPrestamoById σ pid = some p)
    (hnd : p.devuelto = false)
    (hl : findLibro σ p.libro_id = some libro)
    (hc : cantidad = none ∨ cantidad = some p.cantidad)
    (hpos : 0 < p.cantidad) :
    devolverLibro σ pid cantidad actor now =
      (none, writePrestamo { p with devuelto := true, recibido_por := some actor }
        (saveLibro { libro with cantidad := libro.cantidad + p.cantidad } σ)) := by
  have hgd : cantidad.getD p.cantidad = p.cantidad := by
    rcases hc with h | h <;> simp [h]
  have h0 : ¬ p.cantidad ≤ 0 := not_le.mpr hpos
  simp only [devolverLibro, hp, hnd, Bool.false_eq_true, if_false, hgd,
    if_neg h0, if_neg (lt_irrefl p.cantidad), hl, beq_self_eq_true, if_true]

theorem devolverLibro_parcial (σ : State) (pid : Nat) (c : Int)
    (actor now : Nat) (p : PrestamoLibro) (libro : Libro)
    (hp : findPrestamoById σ pid = some p)
    (hnd : p.devuelto = false)
    (hl : findLibro σ p.libro_id = some libro)
    (hpos : 0 < c)
    (hlt : c < p.cantidad) :
    devolverLibro σ pid (some c) actor now =
      (none, writePrestamo
        { p with
          cantidad := p.cantidad - c,
          recibido_por := some actor,
          observaciones := p.observaciones ++ "\n[" ++ toString now
            ++ "] devolucion parcial de " ++ toString c }
        (saveLibro { libro with cantidad := libro.cantidad + c } σ)) := by
  have h0 : ¬ c ≤ 0 := not_le.mpr hpos
  have h1 : ¬ p.cantidad < c := not_lt.mpr (le_of_lt hlt)
  have h2 : ¬ (c == p.cantidad) = true := by
    simp only [beq_iff_eq]
    exact ne_of_lt hlt
  simp only [devolverLibro, hp, hnd, Bool.false_eq_true, if_false, Option.getD_some,
    if_neg h0, if_neg h1, hl, if_neg h2]

-- ==============================
-- error paths and bulk removal
-- ==============================

theorem crearAsignacion_sinStock (σ : State) (B u : Nat) (t : String) (c : Option Int)
    (obs : Option String) (fdp : Option Nat) (now : Nat) (bien : Asset)
    (hb : findAssetById σ B = some bien)
    (hu : σ.usuarios.contains u = true)
    (ht : (t == "PRESTAMO" || t == "ASIGNACION") = true)
    (hstock : bien.cantidad < normCantidad c) :
    crearAsignacion σ B u t c obs fdp now = (some Err.insufficientStock, σ) := by
  simp only [crearAsignacion, hb, hu, ht, Bool.not_true, Bool.false_eq_true,
    if_false, if_pos hstock]

theorem crearPrestamo_sinStock (σ : State) (L u : Nat) (cantidad : Int)
    (fdev : Option Nat) (obs : Option String) (actor now : Nat) (libro : Libro)
    (hpos : 0 < cantidad)
    (hl : findLibro σ L = some libro)
    (hu : σ.usuarios.contains u = true)
    (hstock : libro.cantidad < cantidad) :
    crearPrestamo σ L u cantidad fdev obs actor now = (some Err.insufficientStock, σ) := by
  have h0 : ¬ cantidad ≤ 0 := not_le.mpr hpos
  simp only [crearPrestamo, if_neg h0, hl, hu, Bool.not_true, Bool.false_eq_true,
    if_false, if_pos hstock]

theorem devolverBien_exceso (σ : State) (u : Nat) (cod : String) (cantidad : Int)
    (bien : Asset) (asg : AssetAssignment)
    (hb : findAssetByCodigo σ cod = some bien)
    (ha : findAsignacionActiva σ bien.id u = some asg)
    (hpos : 0 < cantidad)
    (hgt : asg.cantidad_asignada < cantidad) :
    devolverBien σ u cod cantidad = (some Err.invalidArgument, σ) := by
  have h0 : ¬ cantidad ≤ 0 := not_le.mpr hpos
  simp only [devolverBien, hb, ha, if_neg h0, if_pos hgt]

theorem devolverLibro_exceso (σ : State) (pid : Nat) (c : Int) (actor now : Nat)
    (p : PrestamoLibro)
    (hp : findPrestamoById σ pid = some p)
    (hnd : p.devuelto = false)
    (hpos : 0 < c)
    (hgt : p.cantidad < c) :
    devolverLibro σ pid (some c) actor now = (some Err.invalidArgument, σ) := by
  have h0 : ¬ c ≤ 0 := not_le.mpr hpos
  simp only [devolverLibro, hp, hnd, Bool.false_eq_true, if_false, Option.getD_some,
    if_neg h0, if_pos hgt]

theorem eliminarCantidadLibro_noPositivo (σ : State) (L : Nat) (cantidad : Int)
    (libro : Libro)
    (hl : findLibro σ L = some libro)
    (hc : cantidad ≤ 0) :
    eliminarCantidadLibro σ L cantidad = (some Err.invalidArgument, σ) := by
  simp only [eliminarCantidadLibro, hl, if_pos hc]

theorem eliminarCantidadLibro_borra (σ : State) (L : Nat) (cantidad : Int)
    (libro : Libro)
    (hl : findLibro σ L = some libro)
    (hpos : 0 < cantidad)
    (hle : libro.cantidad ≤ cantidad) :
    eliminarCantidadLibro σ L cantidad = (none, deleteLibro libro.id σ) := by
  have h0 : ¬ cantidad ≤ 0 := not_le.mpr hpos
  have h1 : libro.cantidad - cantidad ≤ 0 := by omega
  simp only [eliminarCantidadLibro, hl, if_neg h0, if_pos h1]

theorem eliminarBien_todo (σ : State) (cod : String) (cantidad : Option Int)
    (bien : Asset)
    (hb : findAssetByCodigo σ cod = some bien)
    (hc : cantidad = none ∨ ∃ c, cantidad = some c ∧ bien.cantidad ≤ c) :
    eliminarBien σ cod cantidad = (none, deleteAsset bien.id σ) := by
  rcases hc with h | ⟨c, h, hle⟩
  · simp only [eliminarBien, hb, h]
  · simp only [eliminarBien, hb, h, if_pos hle]

theorem eliminarBien_resta (σ : State) (cod : String) (c : Int) (bien : Asset)
    (hb : findAssetByCodigo σ cod = some bien)
    (hlt : c < bien.cantidad) :
    eliminarBien σ cod (some c) =
      (none, saveAsset { bien with cantidad := bien.cantidad - c } σ) := by
  have h1 : ¬ bien.cantidad ≤ c := not_le.mpr hlt
  simp only [eliminarBien, hb, if_neg h1]



-- remaining error paths (state returned unchanged)

theorem crearAsignacion_sinBien (σ : State) (B u : Nat) (t : String) (c : Option Int)
    (obs : Option String) (fdp : Option Nat) (now : Nat)
    (hb : findAssetById σ B = none) :
    crearAsignacion σ B u t c obs fdp now = (some Err.notFound, σ) := by
  simp only [crearAsignacion, hb]

theorem crearAsignacion_sinUsuario (σ : State) (B u : Nat) (t : String) (c : Option Int)
    (obs : Option String) (fdp : Option Nat) (now : Nat) (bien : Asset)
    (hb : findAssetById σ B = some bien)
    (hu : σ.usuarios.contains u = false) :
    crearAsignacion σ B u t c obs fdp now = (some Err.notFound, σ) := by
  simp only [crearAsignacion, hb, hu, Bool.not_false, if_true]

theorem crearAsignacion_tipoInvalido (σ : State) (B u : Nat) (t : String) (c : Option Int)
    (obs : Option String) (fdp : Option Nat) (now : Nat) (bien : Asset)
    (hb : findAssetById σ B = some bien)
    (hu : σ.usuarios.contains u = true)
    (ht : (t == "PRESTAMO" || t == "ASIGNACION") = false) :
    crearAsignacion σ B u t c obs fdp now = (some Err.invalidArgument, σ) := by
  simp only [crearAsignacion, hb, hu, ht, Bool.not_true, Bool.not_false,
    Bool.false_eq_true, if_false, if_true]

theorem devolverBien_sinBien (σ : State) (u : Nat) (cod : String) (cantidad : Int)
    (hb : findAssetByCodigo σ cod = none) :
    devolverBien σ u cod cantidad = (some Err.notFound, σ) := by
  simp only [devolverBien, hb]

theorem devolverBien_sinAsignacion (σ : State) (u : Nat) (cod : String) (cantidad : Int)
    (bien : Asset)
    (hb : findAssetByCodigo σ cod = some bien)
    (ha : findAsignacionActiva σ bien.id u = none) :
    devolverBien σ u cod cantidad = (some Err.notFound, σ) := by
  simp only [devolverBien, hb, ha]

theorem devolverBien_noPositiva (σ : State) (u : Nat) (cod : String) (cantidad : Int)
    (bien : Asset) (asg : AssetAssignment)
    (hb : findAssetByCodigo σ cod = some bien)
    (ha : findAsignacionActiva σ bien.id u = some asg)
    (hc : cantidad ≤ 0) :
    devolverBien σ u cod cantidad = (some Err.invalidArgument, σ) := by
  simp only [devolverBien, hb, ha, if_pos hc]

theorem crearPrestamo_noPositivo (σ : State) (L u : Nat) (cantidad : Int)
    (fdev : Option Nat) (obs : Option String) (actor now : Nat)
    (hc : cantidad ≤ 0) :
    crearPrestamo σ L u cantidad fdev obs actor now = (some Err.invalidArgument, σ) := by
  simp only [crearPrestamo, if_pos hc]

theorem crearPrestamo_sinLibro (σ : State) (L u : Nat) (cantidad : Int)
    (fdev : Option Nat) (obs : Option String) (actor now : Nat)
    (hpos : 0 < cantidad)
    (hl : findLibro σ L = none) :
    crearPrestamo σ L u cantidad fdev obs actor now = (some Err.notFound, σ) := by
  simp only [crearPrestamo, if_neg (not_le.mpr hpos), hl]

theorem crearPrestamo_sinUsuario (σ : State) (L u : Nat) (cantidad : Int)
    (fdev : Option Nat) (obs : Option String) (actor now : Nat) (libro : Libro)
    (hpos : 0 < cantidad)
    (hl : findLibro σ L = some libro)
    (hu : σ.usuarios.contains u = false) :
    crearPrestamo σ L u cantidad fdev obs actor now = (some Err.notFound, σ) := by
  simp only [crearPrestamo, if_neg (not_le.mpr hpos), hl, hu, Bool.not_false, if_true]

theorem devolverLibro_sinPrestamo (σ : State) (pid : Nat) (cantidad : Option Int)
    (actor now : Nat)
    (hp : findPrestamoById σ pid = none) :
    devolverLibro σ pid cantidad actor now = (some Err.notFound, σ) := by
  simp only [devolverLibro, hp]

theorem devolverLibro_yaDevuelto (σ : State) (pid : Nat) (cantidad : Option Int)
    (actor now : Nat) (p : PrestamoLibro)
    (hp : findPrestamoById σ pid = some p)
    (hd : p.devuelto = true) :
    devolverLibro σ pid cantidad actor now = (some Err.alreadyReturned, σ) := by
  simp only [devolverLibro, hp, hd, if_true]

theorem devolverLibro_noPositiva (σ : State) (pid : Nat) (cantidad : Option Int)
    (actor now : Nat) (p : PrestamoLibro)
    (hp : findPrestamoById σ pid = some p)
    (hnd : p.devuelto = false)
    (hc : cantidad.getD p.cantidad ≤ 0) :
    devolverLibro σ pid cantidad actor now = (some Err.invalidArgument, σ) := by
  simp only [devolverLibro, hp, hnd, Bool.false_eq_true, if_false, if_pos hc]

theorem devolverLibro_sinLibro (σ : State) (pid : Nat) (cantidad : Option Int)
    (actor now : Nat) (p : PrestamoLibro)
    (hp : findPrestamoById σ pid = some p)
    (hnd : p.devuelto = false)
    (h0 : ¬ cantidad.getD p.cantidad ≤ 0)
    (h1 : ¬ p.cantidad < cantidad.getD p.cantidad)
    (hl : findLibro σ p.libro_id = none) :
    devolverLibro σ pid cantidad actor now = (some Err.notFound, σ) := by
  simp only [devolverLibro, hp, hnd, Bool.false_eq_true, if_false, if_neg h0,
    if_neg h1, hl]

-- frame: library mutations do not touch the asset tables, asset mutations
-- do not touch the library tables

theorem assetLedger_ext {σ₁ σ₂ : State} (h1 : σ₁.assets = σ₂.assets)
    (h2 : σ₁.asignaciones = σ₂.asignaciones) (bid : Nat) :
    assetLedger σ₁ bid = assetLedger σ₂ bid := by
  unfold assetLedger activoTotalAsg findAssetById
  rw [h1, h2]

theorem libroLedger_ext {σ₁ σ₂ : State} (h1 : σ₁.libros = σ₂.libros)
    (h2 : σ₁.prestamos = σ₂.prestamos) (lid : Nat) :
    libroLedger σ₁ lid = libroLedger σ₂ lid := by
  unfold libroLedger activoTotalPrestamo findLibro
  rw [h1, h2]



-- ==============================
-- well-formedness preservation
-- ==============================

theorem wf_saveAsset {σ : State} (b : Asset) (h : WF σ) : WF (saveAsset b σ) := by
  obtain ⟨h0, h1, h2, h3, h4⟩ := h
  refine ⟨?_, h1, h2, h3, h4⟩
  show ((updKey Asset.id b σ.assets).map Asset.id).Nodup
  rw [updKey_map_key]
  exact h0

theorem wf_saveLibro {σ : State} (l : Libro) (h : WF σ) : WF (saveLibro l σ) := h

theorem wf_writeAsignacion {σ : State} {a : AssetAssignment} (hwf : WF σ)
    (hid : a.id < σ.next_asg_id) : WF (writeAsignacion a σ) := by
  obtain ⟨h0, h1, h2, h3, h4⟩ := hwf
  refine ⟨h0, ?_, ?_, h3, h4⟩
  · show ((updKey AssetAssignment.id a σ.asignaciones).map AssetAssignment.id).Nodup
    rw [updKey_map_key]
    exact h1
  · intro x hx
    rcases mem_updKey_of_mem AssetAssignment.id a σ.asignaciones hx with h | h
    · exact h2 x h
    · subst h; exact hid

theorem wf_insertAsignacion {σ : State} {a : AssetAssignment} (hwf : WF σ)
    (hid : a.id = σ.next_asg_id) : WF (insertAsignacion a σ) := by
  obtain ⟨h0, h1, h2, h3, h4⟩ := hwf
  refine ⟨h0, ?_, ?_, h3, h4⟩
  · show ((σ.asignaciones ++ [a]).map AssetAssignment.id).Nodup
    rw [List.map_append]
    refine List.nodup_append.mpr ⟨h1, by simp, ?_⟩
    intro x hx hxa
    simp only [List.map_cons, List.map_nil, List.mem_singleton] at hxa
    rcases List.mem_map.mp hx with ⟨y, hy, hyx⟩
    have := h2 y hy
    omega
  · intro x hx
    rcases List.mem_append.mp hx with h | h
    · exact Nat.lt_succ_of_lt (h2 x h)
    · simp only [List.mem_singleton] at h
      subst h
      rw [hid]
      exact Nat.lt_succ_self _

theorem wf_deleteAsignacion {σ : State} (i : Nat) (hwf : WF σ) :
    WF (deleteAsignacion i σ) := by
  obtain ⟨h0, h1, h2, h3, h4⟩ := hwf
  exact ⟨h0, nodup_key_delKey AssetAssignment.id i σ.asignaciones h1,
    fun x hx => h2 x (mem_of_mem_delKey AssetAssignment.id i σ.asignaciones hx), h3, h4⟩

theorem wf_writePrestamo {σ : State} {p : PrestamoLibro} (hwf : WF σ)
    (hid : p.id < σ.next_prestamo_id) : WF (writePrestamo p σ) := by
  obtain ⟨h0, h1, h2, h3, h4⟩ := hwf
  refine ⟨h0, h1, h2, ?_, ?_⟩
  · show ((updKey PrestamoLibro.id p σ.prestamos).map PrestamoLibro.id).Nodup
    rw [updKey_map_key]
    exact h3
  · intro x hx
    rcases mem_updKey_of_mem PrestamoLibro.id p σ.prestamos hx with h | h
    · exact h4 x h
    · subst h; exact hid

theorem wf_insertPrestamo {σ : State} {p : PrestamoLibro} (hwf : WF σ)
    (hid : p.id = σ.next_prestamo_id) : WF (insertPrestamo p σ) := by
  obtain ⟨h0, h1, h2, h3, h4⟩ := hwf
  refine ⟨h0, h1, h2, ?_, ?_⟩
  · show ((σ.prestamos ++ [p]).map PrestamoLibro.id).Nodup
    rw [List.map_append]
    refine List.nodup_append.mpr ⟨h3, by simp, ?_⟩
    intro x hx hxp
    simp only [List.map_cons, List.map_nil, List.mem_singleton] at hxp
    rcases List.mem_map.mp hx with ⟨y, hy, hyx⟩
    have := h4 y hy
    omega
  · intro x hx
    rcases List.mem_append.mp hx with h | h
    · exact Nat.lt_succ_of_lt (h4 x h)
    · simp only [List.mem_singleton] at h
      subst h
      rw [hid]
      exact Nat.lt_succ_self _



-- ==============================
-- ledger preservation: asset side
-- ==============================

theorem assetLedger_crearAsignacion (σ : State) (B u : Nat) (t : String) (c : Option Int)
    (obs : Option String) (fdp : Option Nat) (now : Nat) (hwf : WF σ) (bid : Nat) :
    assetLedger ((crearAsignacion σ B u t c obs fdp now).2) bid = assetLedger σ bid := by
  rcases hb : findAssetById σ B with _ | bien
  · rw [crearAsignacion_sinBien σ B u t c obs fdp now hb]
  · have hBid : bien.id = B := findKey_key hb
    have hmem : bien ∈ σ.assets := findKey_mem hb
    cases hu : σ.usuarios.contains u with
    | false => rw [crearAsignacion_sinUsuario σ B u t c obs fdp now bien hb hu]
    | true =>
      cases ht : (t == "PRESTAMO" || t == "ASIGNACION") with
      | false => rw [crearAsignacion_tipoInvalido σ B u t c obs fdp now bien hb hu ht]
      | true =>
        by_cases hstock : bien.cantidad < normCantidad c
        · rw [crearAsignacion_sinStock σ B u t c obs fdp now bien hb hu ht hstock]
        · rcases hae : findAsignacionActiva σ B u with _ | ae
          · -- first grant: a fresh assignment is inserted
            rw [crearAsignacion_nueva σ B u t c obs fdp now bien hb hu ht hstock hae]
            have hsum : ∀ j, activoTotalAsg
                (saveAsset { bien with
                    cantidad := bien.cantidad - normCantidad c,
                    estado := EstadoBien.EN_USO,
                    responsable_actual := some u }
                  (saveAsset { bien with
                      estado := EstadoBien.EN_USO,
                      responsable_actual := some u }
                    (insertAsignacion (nuevaAsignacion σ B u t (normCantidad c) obs fdp now) σ))) j
                = activoTotalAsg σ j
                  + aporteAsg j (nuevaAsignacion σ B u t (normCantidad c) obs fdp now) :=
              fun j => sum_map_append_one (aporteAsg j) σ.asignaciones _
            by_cases hbid : bid = B
            · subst hbid
              have hfind : findAssetById
                  (saveAsset { bien with
                      cantidad := bien.cantidad - normCantidad c,
                      estado := EstadoBien.EN_USO,
                      responsable_actual := some u }
                    (saveAsset { bien with
                        estado := EstadoBien.EN_USO,
                        responsable_actual := some u }
                      (insertAsignacion (nuevaAsignacion σ bid u t (normCantidad c) obs fdp now) σ))) bid
                  = some { bien with
                      cantidad := bien.cantidad - normCantidad c,
                      estado := EstadoBien.EN_USO,
                      responsable_actual := some u } := by
                show findKey Asset.id bid
                    (updKey Asset.id { bien with
                        cantidad := bien.cantidad - normCantidad c,
                        estado := EstadoBien.EN_USO,
                        responsable_actual := some u }
                      (updKey Asset.id { bien with
                          estado := EstadoBien.EN_USO,
                          responsable_actual := some u } σ.assets)) = _
                rw [← hBid]
                have hm : Asset.id { bien with
                    cantidad := bien.cantidad - normCantidad c,
                    estado := EstadoBien.EN_USO,
                    responsable_actual := some u } ∈
                    (updKey Asset.id { bien with
                        estado := EstadoBien.EN_USO,
                        responsable_actual := some u } σ.assets).map Asset.id := by
                  rw [updKey_map_key]
                  show bien.id ∈ σ.assets.map Asset.id
                  exact List.mem_map_of_mem Asset.id hmem
                exact findKey_updKey_self Asset.id _ _ hm
              have haporte : aporteAsg bid (nuevaAsignacion σ bid u t (normCantidad c) obs fdp now)
                  = normCantidad c := by
                unfold aporteAsg nuevaAsignacion
                rw [if_pos ⟨rfl, rfl⟩]
              unfold assetLedger
              rw [hfind, hb]
              simp only [Option.map_some', hsum bid, haporte]
              congr 1
              ring
            · have hne : ¬ bid = Asset.id { bien with
                  cantidad := bien.cantidad - normCantidad c,
                  estado := EstadoBien.EN_USO,
                  responsable_actual := some u } := by
                show ¬ bid = bien.id
                rw [hBid]; exact hbid
              have hne' : ¬ bid = Asset.id { bien with
                  estado := EstadoBien.EN_USO,
                  responsable_actual := some u } := by
                show ¬ bid = bien.id
                rw [hBid]; exact hbid
              have hfind : findAssetById
                  (saveAsset { bien with
                      cantidad := bien.cantidad - normCantidad c,
                      estado := EstadoBien.EN_USO,
                      responsable_actual := some u }
                    (saveAsset { bien with
                        estado := EstadoBien.EN_USO,
                        responsable_actual := some u }
                      (insertAsignacion (nuevaAsignacion σ B u t (normCantidad c) obs fdp now) σ))) bid
                  = findAssetById σ bid := by
                show findKey Asset.id bid
                    (updKey Asset.id _ (updKey Asset.id _ σ.assets)) = findKey Asset.id bid σ.assets
                rw [findKey_updKey_ne _ _ _ _ hne, findKey_updKey_ne _ _ _ _ hne']
              have haporte : aporteAsg bid (nuevaAsignacion σ B u t (normCantidad c) obs fdp now)
                  = 0 := by
                unfold aporteAsg nuevaAsignacion
                rw [if_neg]
                intro hcon
                exact hbid hcon.1.symm
              have hs : activoTotalAsg
                  (saveAsset { bien with
                      cantidad := bien.cantidad - normCantidad c,
                      estado := EstadoBien.EN_USO,
                      responsable_actual := some u }
                    (saveAsset { bien with
                        estado := EstadoBien.EN_USO,
                        responsable_actual := some u }
                      (insertAsignacion (nuevaAsignacion σ B u t (normCantidad c) obs fdp now) σ))) bid
                  = activoTotalAsg σ bid := by
                rw [hsum bid, haporte, add_zero]
              unfold assetLedger
              rw [hfind]
              simp only [hs]
          · -- repeated grant: the existing active assignment is consolidated
            rw [crearAsignacion_consolida σ B u t c obs fdp now bien ae hb hu ht hstock hae]
            have hfa := findAsignacionActiva_facts hae
            have hsum : ∀ j, activoTotalAsg
                (saveAsset { bien with cantidad := bien.cantidad - normCantidad c }
                  (saveAsset { bien with
                      estado := EstadoBien.EN_USO,
                      responsable_actual := some u }
                    (writeAsignacion (asgConsolidada ae (normCantidad c) obs fdp) σ))) j
                = activoTotalAsg σ j + aporteAsg j (asgConsolidada ae (normCantidad c) obs fdp)
                  - aporteAsg j ae :=
              fun j => sum_map_updKey AssetAssignment.id (aporteAsg j)
                (asgConsolidada ae (normCantidad c) obs fdp) ae σ.asignaciones hwf.2.1 hfa.1 rfl
            by_cases hbid : bid = B
            · subst hbid
              have hfind : findAssetById
                  (saveAsset { bien with cantidad := bien.cantidad - normCantidad c }
                    (saveAsset { bien with
                        estado := EstadoBien.EN_USO,
                        responsable_actual := some u }
                      (writeAsignacion (asgConsolidada ae (normCantidad c) obs fdp) σ))) bid
                  = some { bien with cantidad := bien.cantidad - normCantidad c } := by
                show findKey Asset.id bid
                    (updKey Asset.id { bien with cantidad := bien.cantidad - normCantidad c }
                      (updKey Asset.id { bien with
                          estado := EstadoBien.EN_USO,
                          responsable_actual := some u } σ.assets)) = _
                rw [← hBid]
                have hm : Asset.id { bien with cantidad := bien.cantidad - normCantidad c } ∈
                    (updKey Asset.id { bien with
                        estado := EstadoBien.EN_USO,
                        responsable_actual := some u } σ.assets).map Asset.id := by
                  rw [updKey_map_key]
                  show bien.id ∈ σ.assets.map Asset.id
                  exact List.mem_map_of_mem Asset.id hmem
                exact findKey_updKey_self Asset.id _ _ hm
              have hap1 : aporteAsg bid (asgConsolidada ae (normCantidad c) obs fdp)
                  = ae.cantidad_asignada + normCantidad c := by
                unfold aporteAsg asgConsolidada
                rw [if_pos ⟨hfa.2.1, hfa.2.2.2⟩]
              have hap2 : aporteAsg bid ae = ae.cantidad_asignada := by
                unfold aporteAsg
                rw [if_pos ⟨hfa.2.1, hfa.2.2.2⟩]
              unfold assetLedger
              rw [hfind, hb]
              simp only [Option.map_some', hsum bid, hap1, hap2]
              congr 1
              ring
            · have hne : ¬ bid = Asset.id { bien with cantidad := bien.cantidad - normCantidad c } := by
                show ¬ bid = bien.id
                rw [hBid]; exact hbid
              have hne' : ¬ bid = Asset.id { bien with
                  estado := EstadoBien.EN_USO,
                  responsable_actual := some u } := by
                show ¬ bid = bien.id
                rw [hBid]; exact hbid
              have hfind : findAssetById
                  (saveAsset { bien with cantidad := bien.cantidad - normCantidad c }
                    (saveAsset { bien with
                        estado := EstadoBien.EN_USO,
                        responsable_actual := some u }
                      (writeAsignacion (asgConsolidada ae (normCantidad c) obs fdp) σ))) bid
                  = findAssetById σ bid := by
                show findKey Asset.id bid
                    (updKey Asset.id _ (updKey Asset.id _ σ.assets)) = findKey Asset.id bid σ.assets
                rw [findKey_updKey_ne _ _ _ _ hne, findKey_updKey_ne _ _ _ _ hne']
              have hap1 : aporteAsg bid (asgConsolidada ae (normCantidad c) obs fdp) = 0 := by
                unfold aporteAsg asgConsolidada
                rw [if_neg]
                intro hcon
                exact hbid (hfa.2.1 ▸ hcon.1.symm)
              have hap2 : aporteAsg bid ae = 0 := by
                unfold aporteAsg
                rw [if_neg]
                intro hcon
                exact hbid (hfa.2.1 ▸ hcon.1.symm)
              have hs : activoTotalAsg
                  (saveAsset { bien with cantidad := bien.cantidad - normCantidad c }
                    (saveAsset { bien with
                        estado := EstadoBien.EN_USO,
                        responsable_actual := some u }
                      (writeAsignacion (asgConsolidada ae (normCantidad c) obs fdp) σ))) bid
                  = activoTotalAsg σ bid := by
                rw [hsum bid, hap1, hap2]
                ring
              unfold assetLedger
              rw [hfind]
              simp only [hs]



theorem assetLedger_devolverBien (σ : State) (u : Nat) (cod : String) (cantidad : Int)
    (hwf : WF σ) (bid : Nat) :
    assetLedger ((devolverBien σ u cod cantidad).2) bid = assetLedger σ bid := by
  rcases hb : findAssetByCodigo σ cod with _ | bien
  · rw [devolverBien_sinBien σ u cod cantidad hb]
  · rcases ha : findAsignacionActiva σ bien.id u with _ | asg
    · rw [devolverBien_sinAsignacion σ u cod cantidad bien hb ha]
    · by_cases h0 : cantidad ≤ 0
      · rw [devolverBien_noPositiva σ u cod cantidad bien asg hb ha h0]
      · have hpos : 0 < cantidad := not_le.mp h0
        by_cases hgt : asg.cantidad_asignada < cantidad
        · rw [devolverBien_exceso σ u cod cantidad bien asg hb ha hpos hgt]
        · have hfa := findAsignacionActiva_facts ha
          have hmem : bien ∈ σ.assets := findKey_mem hb
          by_cases heq : asg.cantidad_asignada = cantidad
          · -- full return: the assignment row is deleted
            rw [devolverBien_total σ u cod cantidad bien asg hb ha hpos heq]
            have hsum : ∀ j, activoTotalAsg
                (deleteAsignacion asg.id
                  (saveAsset { bien with cantidad := bien.cantidad + cantidad } σ)) j
                = activoTotalAsg σ j - aporteAsg j asg :=
              fun j => sum_map_delKey AssetAssignment.id (aporteAsg j) asg σ.asignaciones
                hwf.2.1 hfa.1
            have hfid : findAssetById σ bien.id = some bien :=
              findKey_of_mem_nodup Asset.id σ.assets bien hwf.1 hmem
            by_cases hbid : bid = bien.id
            · have hb' : findAssetById σ bid = some bien := by rw [hbid]; exact hfid
              have hm : Asset.id { bien with cantidad := bien.cantidad + cantidad } ∈
                  σ.assets.map Asset.id := by
                show bien.id ∈ σ.assets.map Asset.id
                exact List.mem_map_of_mem Asset.id hmem
              have hfind : findAssetById
                  (deleteAsignacion asg.id
                    (saveAsset { bien with cantidad := bien.cantidad + cantidad } σ)) bid
                  = some { bien with cantidad := bien.cantidad + cantidad } := by
                show findKey Asset.id bid
                    (updKey Asset.id { bien with cantidad := bien.cantidad + cantidad } σ.assets) = _
                rw [hbid]
                exact findKey_updKey_self Asset.id _ _ hm
              have hap : aporteAsg bid asg = cantidad := by
                unfold aporteAsg
                rw [if_pos ⟨hfa.2.1.trans hbid.symm, hfa.2.2.2⟩]
                exact heq
              unfold assetLedger
              rw [hfind, hb']
              simp only [Option.map_some', hsum bid, hap]
              congr 1
              ring
            · have hne : ¬ bid = Asset.id { bien with cantidad := bien.cantidad + cantidad } := hbid
              have hfind : findAssetById
                  (deleteAsignacion asg.id
                    (saveAsset { bien with cantidad := bien.cantidad + cantidad } σ)) bid
                  = findAssetById σ bid := by
                show findKey Asset.id bid
                    (updKey Asset.id { bien with cantidad := bien.cantidad + cantidad } σ.assets)
                  = findKey Asset.id bid σ.assets
                exact findKey_updKey_ne _ _ _ _ hne
              have hap : aporteAsg bid asg = 0 := by
                unfold aporteAsg
                rw [if_neg]
                intro hcon
                exact hbid (hfa.2.1 ▸ hcon.1.symm)
              have hs : activoTotalAsg
                  (deleteAsignacion asg.id
                    (saveAsset { bien with cantidad := bien.cantidad + cantidad } σ)) bid
                  = activoTotalAsg σ bid := by
                rw [hsum bid, hap]
                ring
              unfold assetLedger
              rw [hfind]
              simp only [hs]
          · -- partial return
            have hlt : cantidad < asg.cantidad_asignada :=
              lt_of_le_of_ne (not_lt.mp hgt) (fun hh => heq hh.symm)
            rw [devolverBien_parcial σ u cod cantidad bien asg hb ha hpos hlt]
            have hsum : ∀ j, activoTotalAsg
                (saveAsset { bien with
                    cantidad := bien.cantidad + cantidad,
                    estado := EstadoBien.EN_USO,
                    responsable_actual := some u }
                  (writeAsignacion
                    { asg with cantidad_asignada := asg.cantidad_asignada - cantidad }
                    (saveAsset { bien with cantidad := bien.cantidad + cantidad } σ))) j
                = activoTotalAsg σ j
                  + aporteAsg j { asg with cantidad_asignada := asg.cantidad_asignada - cantidad }
                  - aporteAsg j asg :=
              fun j => sum_map_updKey AssetAssignment.id (aporteAsg j)
                { asg with cantidad_asignada := asg.cantidad_asignada - cantidad }
                asg σ.asignaciones hwf.2.1 hfa.1 rfl
            have hfid : findAssetById σ bien.id = some bien :=
              findKey_of_mem_nodup Asset.id σ.assets bien hwf.1 hmem
            by_cases hbid : bid = bien.id
            · have hb' : findAssetById σ bid = some bien := by rw [hbid]; exact hfid
              have hm : Asset.id { bien with
                  cantidad := bien.cantidad + cantidad,
                  estado := EstadoBien.EN_USO,
                  responsable_actual := some u } ∈
                  (updKey Asset.id { bien with cantidad := bien.cantidad + cantidad }
                    σ.assets).map Asset.id := by
                rw [updKey_map_key]
                show bien.id ∈ σ.assets.map Asset.id
                exact List.mem_map_of_mem Asset.id hmem
              have hfind : findAssetById
                  (saveAsset { bien with
                      cantidad := bien.cantidad + cantidad,
                      estado := EstadoBien.EN_USO,
                      responsable_actual := some u }
                    (writeAsignacion
                      { asg with cantidad_asignada := asg.cantidad_asignada - cantidad }
                      (saveAsset { bien with cantidad := bien.cantidad + cantidad } σ))) bid
                  = some { bien with
                      cantidad := bien.cantidad + cantidad,
                      estado := EstadoBien.EN_USO,
                      responsable_actual := some u } := by
                show findKey Asset.id bid
                    (updKey Asset.id { bien with
                        cantidad := bien.cantidad + cantidad,
                        estado := EstadoBien.EN_USO,
                        responsable_actual := some u }
                      (updKey Asset.id { bien with cantidad := bien.cantidad + cantidad }
                        σ.assets)) = _
                rw [hbid]
                exact findKey_updKey_self Asset.id _ _ hm
              have hap1 : aporteAsg bid
                  { asg with cantidad_asignada := asg.cantidad_asignada - cantidad }
                  = asg.cantidad_asignada - cantidad := by
                unfold aporteAsg
                rw [if_pos ⟨hfa.2.1.trans hbid.symm, hfa.2.2.2⟩]
              have hap2 : aporteAsg bid asg = asg.cantidad_asignada := by
                unfold aporteAsg
                rw [if_pos ⟨hfa.2.1.trans hbid.symm, hfa.2.2.2⟩]
              unfold assetLedger
              rw [hfind, hb']
              simp only [Option.map_some', hsum bid, hap1, hap2]
              congr 1
              ring
            · have hne : ¬ bid = Asset.id { bien with
                  cantidad := bien.cantidad + cantidad,
                  estado := EstadoBien.EN_USO,
                  responsable_actual := some u } := hbid
              have hne' : ¬ bid = Asset.id { bien with cantidad := bien.cantidad + cantidad } := hbid
              have hfind : findAssetById
                  (saveAsset { bien with
                      cantidad := bien.cantidad + cantidad,
                      estado := EstadoBien.EN_USO,
                      responsable_actual := some u }
                    (writeAsignacion
                      { asg with cantidad_asignada := asg.cantidad_asignada - cantidad }
                      (saveAsset { bien with cantidad := bien.cantidad + cantidad } σ))) bid
                  = findAssetById σ bid := by
                show findKey Asset.id bid
                    (updKey Asset.id _ (updKey Asset.id _ σ.assets))
                  = findKey Asset.id bid σ.assets
                rw [findKey_updKey_ne _ _ _ _ hne, findKey_updKey_ne _ _ _ _ hne']
              have hap1 : aporteAsg bid
                  { asg with cantidad_asignada := asg.cantidad_asignada - cantidad } = 0 := by
                unfold aporteAsg
                rw [if_neg]
                intro hcon
                exact hbid (hfa.2.1 ▸ hcon.1.symm)
              have hap2 : aporteAsg bid asg = 0 := by
                unfold aporteAsg
                rw [if_neg]
                intro hcon
                exact hbid (hfa.2.1 ▸ hcon.1.symm)
              have hs : activoTotalAsg
                  (saveAsset { bien with
                      cantidad := bien.cantidad + cantidad,
                      estado := EstadoBien.EN_USO,
                      responsable_actual := some u }
                    (writeAsignacion
                      { asg with cantidad_asignada := asg.cantidad_asignada - cantidad }
                      (saveAsset { bien with cantidad := bien.cantidad + cantidad } σ))) bid
                  = activoTotalAsg σ bid := by
                rw [hsum bid, hap1, hap2]
                ring
              unfold assetLedger
              rw [hfind]
              simp only [hs]



-- ==============================
-- ledger preservation: library side
-- ==============================

theorem libroLedger_crearPrestamo (σ : State) (L u : Nat) (cantidad : Int)
    (fdev : Option Nat) (obs : Option String) (actor now : Nat) (hwf : WF σ) (lid : Nat) :
    libroLedger ((crearPrestamo σ L u cantidad fdev obs actor now).2) lid
      = libroLedger σ lid := by
  by_cases h0 : cantidad ≤ 0
  · rw [crearPrestamo_noPositivo σ L u cantidad fdev obs actor now h0]
  · have hpos : 0 < cantidad := not_le.mp h0
    rcases hl : findLibro σ L with _ | libro
    · rw [crearPrestamo_sinLibro σ L u cantidad fdev obs actor now hpos hl]
    · have hLid : libro.id = L := findKey_key hl
      have hmem : libro ∈ σ.libros := findKey_mem hl
      cases hu : σ.usuarios.contains u with
      | false => rw [crearPrestamo_sinUsuario σ L u cantidad fdev obs actor now libro hpos hl hu]
      | true =>
        by_cases hstock : libro.cantidad < cantidad
        · rw [crearPrestamo_sinStock σ L u cantidad fdev obs actor now libro hpos hl hu hstock]
        · rcases hpe : findPrestamoActivo σ u L with _ | pe
          · -- first loan: a fresh row is inserted
            rw [crearPrestamo_nuevo σ L u cantidad fdev obs actor now libro hpos hl hu hstock hpe]
            have hsum : ∀ j, activoTotalPrestamo
                (saveLibro { libro with cantidad := libro.cantidad - cantidad }
                  (insertPrestamo (nuevoPrestamo σ L u cantidad fdev obs actor now) σ)) j
                = activoTotalPrestamo σ j
                  + aportePrestamo j (nuevoPrestamo σ L u cantidad fdev obs actor now) :=
              fun j => sum_map_append_one (aportePrestamo j) σ.prestamos _
            by_cases hlid : lid = L
            · subst hlid
              have hm : Libro.id { libro with cantidad := libro.cantidad - cantidad } ∈
                  σ.libros.map Libro.id := by
                show libro.id ∈ σ.libros.map Libro.id
                exact List.mem_map_of_mem Libro.id hmem
              have hfind : findLibro
                  (saveLibro { libro with cantidad := libro.cantidad - cantidad }
                    (insertPrestamo (nuevoPrestamo σ lid u cantidad fdev obs actor now) σ)) lid
                  = some { libro with cantidad := libro.cantidad - cantidad } := by
                show findKey Libro.id lid
                    (updKey Libro.id { libro with cantidad := libro.cantidad - cantidad }
                      σ.libros) = _
                rw [← hLid]
                exact findKey_updKey_self Libro.id _ _ hm
              have hap : aportePrestamo lid (nuevoPrestamo σ lid u cantidad fdev obs actor now)
                  = cantidad := by
                unfold aportePrestamo nuevoPrestamo
                rw [if_pos ⟨rfl, rfl⟩]
              unfold libroLedger
              rw [hfind, hl]
              simp only [Option.map_some', hsum lid, hap]
              congr 1
              ring
            · have hne : ¬ lid = Libro.id { libro with cantidad := libro.cantidad - cantidad } := by
                show ¬ lid = libro.id
                rw [hLid]; exact hlid
              have hfind : findLibro
                  (saveLibro { libro with cantidad := libro.cantidad - cantidad }
                    (insertPrestamo (nuevoPrestamo σ L u cantidad fdev obs actor now) σ)) lid
                  = findLibro σ lid := by
                show findKey Libro.id lid
                    (updKey Libro.id { libro with cantidad := libro.cantidad - cantidad }
                      σ.libros) = findKey Libro.id lid σ.libros
                exact findKey_updKey_ne _ _ _ _ hne
              have hap : aportePrestamo lid (nuevoPrestamo σ L u cantidad fdev obs actor now)
                  = 0 := by
                unfold aportePrestamo nuevoPrestamo
                rw [if_neg]
                intro hcon
                exact hlid hcon.1.symm
              have hs : activoTotalPrestamo
                  (saveLibro { libro with cantidad := libro.cantidad - cantidad }
                    (insertPrestamo (nuevoPrestamo σ L u cantidad fdev obs actor now) σ)) lid
                  = activoTotalPrestamo σ lid := by
                rw [hsum lid, hap, add_zero]
              unfold libroLedger
              rw [hfind]
              simp only [hs]
          · -- repeated loan: consolidation
            rw [crearPrestamo_consolida σ L u cantidad fdev obs actor now libro pe
              hpos hl hu hstock hpe]
            have hfp := findPrestamoActivo_facts hpe
            have hsum : ∀ j, activoTotalPrestamo
                (saveLibro { libro with cantidad := libro.cantidad - cantidad }
                  (writePrestamo (prestamoConsolidado pe cantidad obs now) σ)) j
                = activoTotalPrestamo σ j
                  + aportePrestamo j (prestamoConsolidado pe cantidad obs now)
                  - aportePrestamo j pe :=
              fun j => sum_map_updKey PrestamoLibro.id (aportePrestamo j)
                (prestamoConsolidado pe cantidad obs now) pe σ.prestamos hwf.2.2.2.1 hfp.1 rfl
            by_cases hlid : lid = L
            · subst hlid
              have hm : Libro.id { libro with cantidad := libro.cantidad - cantidad } ∈
                  σ.libros.map Libro.id := by
                show libro.id ∈ σ.libros.map Libro.id
                exact List.mem_map_of_mem Libro.id hmem
              have hfind : findLibro
                  (saveLibro { libro with cantidad := libro.cantidad - cantidad }
                    (writePrestamo (prestamoConsolidado pe cantidad obs now) σ)) lid
                  = some { libro with cantidad := libro.cantidad - cantidad } := by
                show findKey Libro.id lid
                    (updKey Libro.id { libro with cantidad := libro.cantidad - cantidad }
                      σ.libros) = _
                rw [← hLid]
                exact findKey_updKey_self Libro.id _ _ hm
              have hap1 : aportePrestamo lid (prestamoConsolidado pe cantidad obs now)
                  = pe.cantidad + cantidad := by
                unfold aportePrestamo prestamoConsolidado
                rw [if_pos ⟨hfp.2.2.1, hfp.2.2.2⟩]
              have hap2 : aportePrestamo lid pe = pe.cantidad := by
                unfold aportePrestamo
                rw [if_pos ⟨hfp.2.2.1, hfp.2.2.2⟩]
              unfold libroLedger
              rw [hfind, hl]
              simp only [Option.map_some', hsum lid, hap1, hap2]
              congr 1
              ring
            · have hne : ¬ lid = Libro.id { libro with cantidad := libro.cantidad - cantidad } := by
                show ¬ lid = libro.id
                rw [hLid]; exact hlid
              have hfind : findLibro
                  (saveLibro { libro with cantidad := libro.cantidad - cantidad }
                    (writePrestamo (prestamoConsolidado pe cantidad obs now) σ)) lid
                  = findLibro σ lid := by
                show findKey Libro.id lid
                    (updKey Libro.id { libro with cantidad := libro.cantidad - cantidad }
                      σ.libros) = findKey Libro.id lid σ.libros
                exact findKey_updKey_ne _ _ _ _ hne
              have hap1 : aportePrestamo lid (prestamoConsolidado pe cantidad obs now) = 0 := by
                unfold aportePrestamo prestamoConsolidado
                rw [if_neg]
                intro hcon
                exact hlid (hfp.2.2.1 ▸ hcon.1.symm)
              have hap2 : aportePrestamo lid pe = 0 := by
                unfold aportePrestamo
                rw [if_neg]
                intro hcon
                exact hlid (hfp.2.2.1 ▸ hcon.1.symm)
              have hs : activoTotalPrestamo
                  (saveLibro { libro with cantidad := libro.cantidad - cantidad }
                    (writePrestamo (prestamoConsolidado pe cantidad obs now) σ)) lid
                  = activoTotalPrestamo σ lid := by
                rw [hsum lid, hap1, hap2]
                ring
              unfold libroLedger
              rw [hfind]
              simp only [hs]



theorem libroLedger_devolverLibro (σ : State) (pid : Nat) (cantidad : Option Int)
    (actor now : Nat) (hwf : WF σ) (lid : Nat) :
    libroLedger ((devolverLibro σ pid cantidad actor now).2) lid = libroLedger σ lid := by
  rcases hp : findPrestamoById σ pid with _ | p
  · rw [devolverLibro_sinPrestamo σ pid cantidad actor now hp]
  · cases hd : p.devuelto with
    | true => rw [devolverLibro_yaDevuelto σ pid cantidad actor now p hp hd]
    | false =>
      by_cases h0 : cantidad.getD p.cantidad ≤ 0
      · rw [devolverLibro_noPositiva σ pid cantidad actor now p hp hd h0]
      · by_cases h1 : p.cantidad < cantidad.getD p.cantidad
        · rcases cantidad with _ | c
          · simp only [Option.getD_none] at h1
            exact absurd h1 (lt_irrefl _)
          · simp only [Option.getD_some] at h0 h1
            rw [devolverLibro_exceso σ pid c actor now p hp hd (not_le.mp h0) h1]
        · rcases hl : findLibro σ p.libro_id with _ | libro
          · rw [devolverLibro_sinLibro σ pid cantidad actor now p hp hd h0 h1 hl]
          · have hLid : libro.id = p.libro_id := findKey_key hl
            have hmem : libro ∈ σ.libros := findKey_mem hl
            have hpm : p ∈ σ.prestamos := findKey_mem hp
            by_cases heq : cantidad.getD p.cantidad = p.cantidad
            · -- full return
              have hc : cantidad = none ∨ cantidad = some p.cantidad := by
                rcases cantidad with _ | c
                · exact Or.inl rfl
                · simp only [Option.getD_some] at heq
                  exact Or.inr (by rw [heq])
              have hpos : 0 < p.cantidad := by
                rcases hc with h | h <;> rw [h] at h0 <;> simp at h0 <;> omega
              rw [devolverLibro_total σ pid cantidad actor now p libro hp hd hl hc hpos]
              have hsum : ∀ j, activoTotalPrestamo
                  (writePrestamo { p with devuelto := true, recibido_por := some actor }
                    (saveLibro { libro with cantidad := libro.cantidad + p.cantidad } σ)) j
                  = activoTotalPrestamo σ j
                    + aportePrestamo j { p with devuelto := true, recibido_por := some actor }
                    - aportePrestamo j p :=
                fun j => sum_map_updKey PrestamoLibro.id (aportePrestamo j)
                  { p with devuelto := true, recibido_por := some actor }
                  p σ.prestamos hwf.2.2.2.1 hpm rfl
              have hap1 : ∀ j, aportePrestamo j
                  { p with devuelto := true, recibido_por := some actor } = 0 := by
                intro j
                unfold aportePrestamo
                rw [if_neg]
                intro hcon
                exact Bool.true_eq_false.mp hcon.2
              by_cases hlid : lid = p.libro_id
              · have hl' : findLibro σ lid = some libro := by rw [hlid]; exact hl
                have hm : Libro.id { libro with cantidad := libro.cantidad + p.cantidad } ∈
                    σ.libros.map Libro.id := by
                  show libro.id ∈ σ.libros.map Libro.id
                  exact List.mem_map_of_mem Libro.id hmem
                have hfind : findLibro
                    (writePrestamo { p with devuelto := true, recibido_por := some actor }
                      (saveLibro { libro with cantidad := libro.cantidad + p.cantidad } σ)) lid
                    = some { libro with cantidad := libro.cantidad + p.cantidad } := by
                  show findKey Libro.id lid
                      (updKey Libro.id { libro with cantidad := libro.cantidad + p.cantidad }
                        σ.libros) = _
                  rw [hlid, ← hLid]
                  exact findKey_updKey_self Libro.id _ _ hm
                have hap2 : aportePrestamo lid p = p.cantidad := by
                  unfold aportePrestamo
                  rw [if_pos ⟨hlid.symm, hd⟩]
                unfold libroLedger
                rw [hfind, hl']
                simp only [Option.map_some', hsum lid, hap1 lid, hap2]
                congr 1
                ring
              · have hne : ¬ lid = Libro.id { libro with
                    cantidad := libro.cantidad + p.cantidad } := by
                  show ¬ lid = libro.id
                  rw [hLid]; exact hlid
                have hfind : findLibro
                    (writePrestamo { p with devuelto := true, recibido_por := some actor }
                      (saveLibro { libro with cantidad := libro.cantidad + p.cantidad } σ)) lid
                    = findLibro σ lid := by
                  show findKey Libro.id lid
                      (updKey Libro.id { libro with cantidad := libro.cantidad + p.cantidad }
                        σ.libros) = findKey Libro.id lid σ.libros
                  exact findKey_updKey_ne _ _ _ _ hne
                have hap2 : aportePrestamo lid p = 0 := by
                  unfold aportePrestamo
                  rw [if_neg]
                  intro hcon
                  exact hlid hcon.1.symm
                have hs : activoTotalPrestamo
                    (writePrestamo { p with devuelto := true, recibido_por := some actor }
                      (saveLibro { libro with cantidad := libro.cantidad + p.cantidad } σ)) lid
                    = activoTotalPrestamo σ lid := by
                  rw [hsum lid, hap1 lid, hap2]
                  ring
                unfold libroLedger
                rw [hfind]
                simp only [hs]
            · -- partial return
              rcases cantidad with _ | c
              · exact absurd (by simp) heq
              · simp only [Option.getD_some] at h0 h1 heq
                have hpos : 0 < c := not_le.mp h0
                have hlt : c < p.cantidad := lt_of_le_of_ne (not_lt.mp h1) heq
                rw [devolverLibro_parcial σ pid c actor now p libro hp hd hl hpos hlt]
                have hsum : ∀ j, activoTotalPrestamo
                    (writePrestamo
                      { p with
                        cantidad := p.cantidad - c,
                        recibido_por := some actor,
                        observaciones := p.observaciones ++ "\n[" ++ toString now
                          ++ "] devolucion parcial de " ++ toString c }
                      (saveLibro { libro with cantidad := libro.cantidad + c } σ)) j
                    = activoTotalPrestamo σ j
                      + aportePrestamo j
                        { p with
                          cantidad := p.cantidad - c,
                          recibido_por := some actor,
                          observaciones := p.observaciones ++ "\n[" ++ toString now
                            ++ "] devolucion parcial de " ++ toString c }
                      - aportePrestamo j p :=
                  fun j => sum_map_updKey PrestamoLibro.id (aportePrestamo j)
                    _ p σ.prestamos hwf.2.2.2.1 hpm rfl
                by_cases hlid : lid = p.libro_id
                · have hl' : findLibro σ lid = some libro := by rw [hlid]; exact hl
                  have hm : Libro.id { libro with cantidad := libro.cantidad + c } ∈
                      σ.libros.map Libro.id := by
                    show libro.id ∈ σ.libros.map Libro.id
                    exact List.mem_map_of_mem Libro.id hmem
                  have hfind : findLibro
                      (writePrestamo
                        { p with
                          cantidad := p.cantidad - c,
                          recibido_por := some actor,
                          observaciones := p.observaciones ++ "\n[" ++ toString now
                            ++ "] devolucion parcial de " ++ toString c }
                        (saveLibro { libro with cantidad := libro.cantidad + c } σ)) lid
                      = some { libro with cantidad := libro.cantidad + c } := by
                    show findKey Libro.id lid
                        (updKey Libro.id { libro with cantidad := libro.cantidad + c }
                          σ.libros) = _
                    rw [hlid, ← hLid]
                    exact findKey_updKey_self Libro.id _ _ hm
                  have hap1 : aportePrestamo lid
                      { p with
                        cantidad := p.cantidad - c,
                        recibido_por := some actor,
                        observaciones := p.observaciones ++ "\n[" ++ toString now
                          ++ "] devolucion parcial de " ++ toString c }
                      = p.cantidad - c := by
                    unfold aportePrestamo
                    rw [if_pos ⟨hlid.symm, hd⟩]
                  have hap2 : aportePrestamo lid p = p.cantidad := by
                    unfold aportePrestamo
                    rw [if_pos ⟨hlid.symm, hd⟩]
                  unfold libroLedger
                  rw [hfind, hl']
                  simp only [Option.map_some', hsum lid, hap1, hap2]
                  congr 1
                  ring
                · have hne : ¬ lid = Libro.id { libro with cantidad := libro.cantidad + c } := by
                    show ¬ lid = libro.id
                    rw [hLid]; exact hlid
                  have hfind : findLibro
                      (writePrestamo
                        { p with
                          cantidad := p.cantidad - c,
                          recibido_por := some actor,
                          observaciones := p.observaciones ++ "\n[" ++ toString now
                            ++ "] devolucion parcial de " ++ toString c }
                        (saveLibro { libro with cantidad := libro.cantidad + c } σ)) lid
                      = findLibro σ lid := by
                    show findKey Libro.id lid
                        (updKey Libro.id { libro with cantidad := libro.cantidad + c }
                          σ.libros) = findKey Libro.id lid σ.libros
                    exact findKey_updKey_ne _ _ _ _ hne
                  have hap1 : aportePrestamo lid
                      { p with
                        cantidad := p.cantidad - c,
                        recibido_por := some actor,
                        observaciones := p.observaciones ++ "\n[" ++ toString now
                          ++ "] devolucion parcial de " ++ toString c } = 0 := by
                    unfold aportePrestamo
                    rw [if_neg]
                    intro hcon
                    exact hlid hcon.1.symm
                  have hap2 : aportePrestamo lid p = 0 := by
                    unfold aportePrestamo
                    rw [if_neg]
                    intro hcon
                    exact hlid hcon.1.symm
                  have hs : activoTotalPrestamo
                      (writePrestamo
                        { p with
                          cantidad := p.cantidad - c,
                          recibido_por := some actor,
                          observaciones := p.observaciones ++ "\n[" ++ toString now
                            ++ "] devolucion parcial de " ++ toString c }
                        (saveLibro { libro with cantidad := libro.cantidad + c } σ)) lid
                      = activoTotalPrestamo σ lid := by
                    rw [hsum lid, hap1, hap2]
                    ring
                  unfold libroLedger
                  rw [hfind]
                  simp only [hs]



-- ==============================
-- cross frames: each subsystem leaves the other's tables untouched
-- ==============================

theorem assetLedger_crearPrestamo (σ : State) (L u : Nat) (cantidad : Int)
    (fdev : Option Nat) (obs : Option String) (actor now : Nat) (bid : Nat) :
    assetLedger ((crearPrestamo σ L u cantidad fdev obs actor now).2) bid
      = assetLedger σ bid := by
  by_cases h0 : cantidad ≤ 0
  · rw [crearPrestamo_noPositivo σ L u cantidad fdev obs actor now h0]
  · have hpos : 0 < cantidad := not_le.mp h0
    rcases hl : findLibro σ L with _ | libro
    · rw [crearPrestamo_sinLibro σ L u cantidad fdev obs actor now hpos hl]
    · cases hu : σ.usuarios.contains u with
      | false => rw [crearPrestamo_sinUsuario σ L u cantidad fdev obs actor now libro hpos hl hu]
      | true =>
        by_cases hstock : libro.cantidad < cantidad
        · rw [crearPrestamo_sinStock σ L u cantidad fdev obs actor now libro hpos hl hu hstock]
        · rcases hpe : findPrestamoActivo σ u L with _ | pe
          · rw [crearPrestamo_nuevo σ L u cantidad fdev obs actor now libro hpos hl hu hstock hpe]
            exact assetLedger_ext rfl rfl bid
          · rw [crearPrestamo_consolida σ L u cantidad fdev obs actor now libro pe
              hpos hl hu hstock hpe]
            exact assetLedger_ext rfl rfl bid

theorem assetLedger_devolverLibro (σ : State) (pid : Nat) (cantidad : Option Int)
    (actor now : Nat) (bid : Nat) :
    assetLedger ((devolverLibro σ pid cantidad actor now).2) bid = assetLedger σ bid := by
  rcases hp : findPrestamoById σ pid with _ | p
  · rw [devolverLibro_sinPrestamo σ pid cantidad actor now hp]
  · cases hd : p.devuelto with
    | true => rw [devolverLibro_yaDevuelto σ pid cantidad actor now p hp hd]
    | false =>
      by_cases h0 : cantidad.getD p.cantidad ≤ 0
      · rw [devolverLibro_noPositiva σ pid cantidad actor now p hp hd h0]
      · by_cases h1 : p.cantidad < cantidad.getD p.cantidad
        · rcases cantidad with _ | c
          · simp only [Option.getD_none] at h1
            exact absurd h1 (lt_irrefl _)
          · simp only [Option.getD_some] at h0 h1
            rw [devolverLibro_exceso σ pid c actor now p hp hd (not_le.mp h0) h1]
        · rcases hl : findLibro σ p.libro_id with _ | libro
          · rw [devolverLibro_sinLibro σ pid cantidad actor now p hp hd h0 h1 hl]
          · by_cases heq : cantidad.getD p.cantidad = p.cantidad
            · have hc : cantidad = none ∨ cantidad = some p.cantidad := by
                rcases cantidad with _ | c
                · exact Or.inl rfl
                · simp only [Option.getD_some] at heq
                  exact Or.inr (by rw [heq])
              have hpos : 0 < p.cantidad := by
                rcases hc with h | h <;> rw [h] at h0 <;> simp at h0 <;> omega
              rw [devolverLibro_total σ pid cantidad actor now p libro hp hd hl hc hpos]
              exact assetLedger_ext rfl rfl bid
            · rcases cantidad with _ | c
              · exact absurd (by simp) heq
              · simp only [Option.getD_some] at h0 h1 heq
                rw [devolverLibro_parcial σ pid c actor now p libro hp hd hl
                  (not_le.mp h0) (lt_of_le_of_ne (not_lt.mp h1) heq)]
                exact assetLedger_ext rfl rfl bid

theorem libroLedger_crearAsignacion (σ : State) (B u : Nat) (t : String) (c : Option Int)
    (obs : Option String) (fdp : Option Nat) (now : Nat) (lid : Nat) :
    libroLedger ((crearAsignacion σ B u t c obs fdp now).2) lid = libroLedger σ lid := by
  rcases hb : findAssetById σ B with _ | bien
  · rw [crearAsignacion_sinBien σ B u t c obs fdp now hb]
  · cases hu : σ.usuarios.contains u with
    | false => rw [crearAsignacion_sinUsuario σ B u t c obs fdp now bien hb hu]
    | true =>
      cases ht : (t == "PRESTAMO" || t == "ASIGNACION") with
      | false => rw [crearAsignacion_tipoInvalido σ B u t c obs fdp now bien hb hu ht]
      | true =>
        by_cases hstock : bien.cantidad < normCantidad c
        · rw [crearAsignacion_sinStock σ B u t c obs fdp now bien hb hu ht hstock]
        · rcases hae : findAsignacionActiva σ B u with _ | ae
          · rw [crearAsignacion_nueva σ B u t c obs fdp now bien hb hu ht hstock hae]
            exact libroLedger_ext rfl rfl lid
          · rw [crearAsignacion_consolida σ B u t c obs fdp now bien ae hb hu ht hstock hae]
            exact libroLedger_ext rfl rfl lid

theorem libroLedger_devolverBien (σ : State) (u : Nat) (cod : String) (cantidad : Int)
    (lid : Nat) :
    libroLedger ((devolverBien σ u cod cantidad).2) lid = libroLedger σ lid := by
  rcases hb : findAssetByCodigo σ cod with _ | bien
  · rw [devolverBien_sinBien σ u cod cantidad hb]
  · rcases ha : findAsignacionActiva σ bien.id u with _ | asg
    · rw [devolverBien_sinAsignacion σ u cod cantidad bien hb ha]
    · by_cases h0 : cantidad ≤ 0
      · rw [devolverBien_noPositiva σ u cod cantidad bien asg hb ha h0]
      · have hpos : 0 < cantidad := not_le.mp h0
        by_cases hgt : asg.cantidad_asignada < cantidad
        · rw [devolverBien_exceso σ u cod cantidad bien asg hb ha hpos hgt]
        · by_cases heq : asg.cantidad_asignada = cantidad
          · rw [devolverBien_total σ u cod cantidad bien asg hb ha hpos heq]
            exact libroLedger_ext rfl rfl lid
          · rw [devolverBien_parcial σ u cod cantidad bien asg hb ha hpos
              (lt_of_le_of_ne (not_lt.mp hgt) (fun hh => heq hh.symm))]
            exact libroLedger_ext rfl rfl lid

-- ==============================
-- well-formedness preservation per mutation
-- ==============================

theorem wf_crearAsignacion (σ : State) (B u : Nat) (t : String) (c : Option Int)
    (obs : Option String) (fdp : Option Nat) (now : Nat) (hwf : WF σ) :
    WF ((crearAsignacion σ B u t c obs fdp now).2) := by
  rcases hb : findAssetById σ B with _ | bien
  · rw [crearAsignacion_sinBien σ B u t c obs fdp now hb]; exact hwf
  · cases hu : σ.usuarios.contains u with
    | false => rw [crearAsignacion_sinUsuario σ B u t c obs fdp now bien hb hu]; exact hwf
    | true =>
      cases ht : (t == "PRESTAMO" || t == "ASIGNACION") with
      | false => rw [crearAsignacion_tipoInvalido σ B u t c obs fdp now bien hb hu ht]; exact hwf
      | true =>
        by_cases hstock : bien.cantidad < normCantidad c
        · rw [crearAsignacion_sinStock σ B u t c obs fdp now bien hb hu ht hstock]; exact hwf
        · rcases hae : findAsignacionActiva σ B u with _ | ae
          · rw [crearAsignacion_nueva σ B u t c obs fdp now bien hb hu ht hstock hae]
            exact wf_saveAsset _ (wf_saveAsset _ (wf_insertAsignacion hwf rfl))
          · rw [crearAsignacion_consolida σ B u t c obs fdp now bien ae hb hu ht hstock hae]
            have hfa := findAsignacionActiva_facts hae
            exact wf_saveAsset _ (wf_saveAsset _
              (wf_writeAsignacion hwf (hwf.2.2.1 ae hfa.1)))

theorem wf_devolverBien (σ : State) (u : Nat) (cod : String) (cantidad : Int)
    (hwf : WF σ) : WF ((devolverBien σ u cod cantidad).2) := by
  rcases hb : findAssetByCodigo σ cod with _ | bien
  · rw [devolverBien_sinBien σ u cod cantidad hb]; exact hwf
  · rcases ha : findAsignacionActiva σ bien.id u with _ | asg
    · rw [devolverBien_sinAsignacion σ u cod cantidad bien hb ha]; exact hwf
    · by_cases h0 : cantidad ≤ 0
      · rw [devolverBien_noPositiva σ u cod cantidad bien asg hb ha h0]; exact hwf
      · have hpos : 0 < cantidad := not_le.mp h0
        by_cases hgt : asg.cantidad_asignada < cantidad
        · rw [devolverBien_exceso σ u cod cantidad bien asg hb ha hpos hgt]; exact hwf
        · have hfa := findAsignacionActiva_facts ha
          by_cases heq : asg.cantidad_asignada = cantidad
          · rw [devolverBien_total σ u cod cantidad bien asg hb ha hpos heq]
            exact wf_deleteAsignacion asg.id (wf_saveAsset _ hwf)
          · rw [devolverBien_parcial σ u cod cantidad bien asg hb ha hpos
              (lt_of_le_of_ne (not_lt.mp hgt) (fun hh => heq hh.symm))]
            exact wf_saveAsset _
              (wf_writeAsignacion (wf_saveAsset _ hwf) (hwf.2.2.1 asg hfa.1))

theorem wf_crearPrestamo (σ : State) (L u : Nat) (cantidad : Int)
    (fdev : Option Nat) (obs : Option String) (actor now : Nat) (hwf : WF σ) :
    WF ((crearPrestamo σ L u cantidad fdev obs actor now).2) := by
  by_cases h0 : cantidad ≤ 0
  · rw [crearPrestamo_noPositivo σ L u cantidad fdev obs actor now h0]; exact hwf
  · have hpos : 0 < cantidad := not_le.mp h0
    rcases hl : findLibro σ L with _ | libro
    · rw [crearPrestamo_sinLibro σ L u cantidad fdev obs actor now hpos hl]; exact hwf
    · cases hu : σ.usuarios.contains u with
      | false =>
        rw [crearPrestamo_sinUsuario σ L u cantidad fdev obs actor now libro hpos hl hu]
        exact hwf
      | true =>
        by_cases hstock : libro.cantidad < cantidad
        · rw [crearPrestamo_sinStock σ L u cantidad fdev obs actor now libro hpos hl hu hstock]
          exact hwf
        · rcases hpe : findPrestamoActivo σ u L with _ | pe
          · rw [crearPrestamo_nuevo σ L u cantidad fdev obs actor now libro hpos hl hu hstock hpe]
            exact wf_saveLibro _ (wf_insertPrestamo hwf rfl)
          · rw [crearPrestamo_consolida σ L u cantidad fdev obs actor now libro pe
              hpos hl hu hstock hpe]
            have hfp := findPrestamoActivo_facts hpe
            exact wf_saveLibro _ (wf_writePrestamo hwf (hwf.2.2.2.2 pe hfp.1))

theorem wf_devolverLibro (σ : State) (pid : Nat) (cantidad : Option Int)
    (actor now : Nat) (hwf : WF σ) : WF ((devolverLibro σ pid cantidad actor now).2) := by
  rcases hp : findPrestamoById σ pid with _ | p
  · rw [devolverLibro_sinPrestamo σ pid cantidad actor now hp]; exact hwf
  · have hpm : p ∈ σ.prestamos := findKey_mem hp
    cases hd : p.devuelto with
    | true => rw [devolverLibro_yaDevuelto σ pid cantidad actor now p hp hd]; exact hwf
    | false =>
      by_cases h0 : cantidad.getD p.cantidad ≤ 0
      · rw [devolverLibro_noPositiva σ pid cantidad actor now p hp hd h0]; exact hwf
      · by_cases h1 : p.cantidad < cantidad.getD p.cantidad
        · rcases cantidad with _ | c
          · simp only [Option.getD_none] at h1
            exact absurd h1 (lt_irrefl _)
          · simp only [Option.getD_some] at h0 h1
            rw [devolverLibro_exceso σ pid c actor now p hp hd (not_le.mp h0) h1]
            exact hwf
        · rcases hl : findLibro σ p.libro_id with _ | libro
          · rw [devolverLibro_sinLibro σ pid cantidad actor now p hp hd h0 h1 hl]; exact hwf
          · by_cases heq : cantidad.getD p.cantidad = p.cantidad
            · have hc : cantidad = none ∨ cantidad = some p.cantidad := by
                rcases cantidad with _ | c
                · exact Or.inl rfl
                · simp only [Option.getD_some] at heq
                  exact Or.inr (by rw [heq])
              have hpos : 0 < p.cantidad := by
                rcases hc with h | h <;> rw [h] at h0 <;> simp at h0 <;> omega
              rw [devolverLibro_total σ pid cantidad actor now p libro hp hd hl hc hpos]
              exact wf_writePrestamo (wf_saveLibro _ hwf) (hwf.2.2.2.2 p hpm)
            · rcases cantidad with _ | c
              · exact absurd (by simp) heq
              · simp only [Option.getD_some] at h0 h1 heq
                rw [devolverLibro_parcial σ pid c actor now p libro hp hd hl
                  (not_le.mp h0) (lt_of_le_of_ne (not_lt.mp h1) heq)]
                exact wf_writePrestamo (wf_saveLibro _ hwf) (hwf.2.2.2.2 p hpm)

-- ==============================
-- per-operation and per-sequence invariance
-- ==============================

theorem wf_applyOp (σ : State) (op : Op) (hwf : WF σ) : WF (applyOp σ op) := by
  cases op with
  | asignar b u t c o f n => exact wf_crearAsignacion σ b u t c o f n hwf
  | devolverB u cod c => exact wf_devolverBien σ u cod c hwf
  | prestar l u c fd o a n => exact wf_crearPrestamo σ l u c fd o a n hwf
  | devolverL p c a n => exact wf_devolverLibro σ p c a n hwf

theorem assetLedger_applyOp (σ : State) (op : Op) (hwf : WF σ) (bid : Nat) :
    assetLedger (applyOp σ op) bid = assetLedger σ bid := by
  cases op with
  | asignar b u t c o f n => exact assetLedger_crearAsignacion σ b u t c o f n hwf bid
  | devolverB u cod c => exact assetLedger_devolverBien σ u cod c hwf bid
  | prestar l u c fd o a n => exact assetLedger_crearPrestamo σ l u c fd o a n bid
  | devolverL p c a n => exact assetLedger_devolverLibro σ p c a n bid

theorem libroLedger_applyOp (σ : State) (op : Op) (hwf : WF σ) (lid : Nat) :
    libroLedger (applyOp σ op) lid = libroLedger σ lid := by
  cases op with
  | asignar b u t c o f n => exact libroLedger_crearAsignacion σ b u t c o f n lid
  | devolverB u cod c => exact libroLedger_devolverBien σ u cod c lid
  | prestar l u c fd o a n => exact libroLedger_crearPrestamo σ l u c fd o a n hwf lid
  | devolverL p c a n => exact libroLedger_devolverLibro σ p c a n hwf lid

theorem wf_applyOps (σ : State) (ops : List Op) (hwf : WF σ) : WF (applyOps σ ops) := by
  induction ops generalizing σ with
  | nil => exact hwf
  | cons op ops ih => exact ih (applyOp σ op) (wf_applyOp σ op hwf)

theorem assetLedger_applyOps (σ : State) (ops : List Op) (hwf : WF σ) (bid : Nat) :
    assetLedger (applyOps σ ops) bid = assetLedger σ bid := by
  induction ops generalizing σ with
  | nil => rfl
  | cons op ops ih =>
    calc assetLedger (applyOps (applyOp σ op) ops) bid
        = assetLedger (applyOp σ op) bid := ih (applyOp σ op) (wf_applyOp σ op hwf)
      _ = assetLedger σ bid := assetLedger_applyOp σ op hwf bid

theorem libroLedger_applyOps (σ : State) (ops : List Op) (hwf : WF σ) (lid : Nat) :
    libroLedger (applyOps σ ops) lid = libroLedger σ lid := by
  induction ops generalizing σ with
  | nil => rfl
  | cons op ops ih =>
    calc libroLedger (applyOps (applyOp σ op) ops) lid
        = libroLedger (applyOp σ op) lid := ih (applyOp σ op) (wf_applyOp σ op hwf)
      _ = libroLedger σ lid := libroLedger_applyOp σ op hwf lid



/-- Claim C1 (confirmed).  Conservation: for every sequence of grant
(`CrearAsignacion` / `CrearPrestamo`) and return (`DevolverBien` /
`DevolverLibro`) operations applied to a well-formed database, a resource
that starts with quantity Q0 and no custody records ends with
`resource.quantity + sum(active custody quantities) = Q0`; no
bulk-adjustment or deletion operations occur in the sequence (the `Op` type
contains only the four custody operations). -/
theorem claim_C1 (σ₀ : State) (ops : List Op) (hwf : WF σ₀) :
    (∀ bid b₀, findAssetById σ₀ bid = some b₀ →
        (∀ a ∈ σ₀.asignaciones, a.bien_id ≠ bid) →
        assetLedger (applyOps σ₀ ops) bid = some b₀.cantidad) ∧
    (∀ lid l₀, findLibro σ₀ lid = some l₀ →
        (∀ p ∈ σ₀.prestamos, p.libro_id ≠ lid) →
        libroLedger (applyOps σ₀ ops) lid = some l₀.cantidad) := by
  constructor
  · intro bid b₀ hb hnone
    rw [assetLedger_applyOps σ₀ ops hwf bid]
    unfold assetLedger
    rw [hb]
    have h0 : activoTotalAsg σ₀ bid = 0 := by
      apply sum_map_zero
      intro a ha
      unfold aporteAsg
      rw [if_neg]
      intro hcon
      exact hnone a ha hcon.1
    simp only [Option.map_some', h0, add_zero]
  · intro lid l₀ hl hnone
    rw [libroLedger_applyOps σ₀ ops hwf lid]
    unfold libroLedger
    rw [hl]
    have h0 : activoTotalPrestamo σ₀ lid = 0 := by
      apply sum_map_zero
      intro p hp
      unfold aportePrestamo
      rw [if_neg]
      intro hcon
      exact hnone p hp hcon.1
    simp only [Option.map_some', h0, add_zero]

/-- Witness for C1: running the concrete sequence `opsEj` (grant 3, return
1, loan 2, return 1) on `σEj` leaves both ledgers at their initial value 5. -/
theorem claim_C1_witness :
    assetLedger (applyOps σEj opsEj) 1 = some 5 ∧
    libroLedger (applyOps σEj opsEj) 1 = some 5 := by
  have h := claim_C1 σEj opsEj (by decide)
  exact ⟨h.1 1 { id := 1, codigo_inventario := "B1", cantidad := 5,
                 estado := EstadoBien.DISPONIBLE, responsable_actual := none }
           rfl (by decide),
         h.2 1 { id := 1, cantidad := 5 } rfl (by decide)⟩



/-- Counterexample to claim C2 as stated.  On `σEjAsignado` user 7 returns
the full 2 assigned units of asset "B1": the operation succeeds and closes
the record (it is deleted), but the asset's status stays `EN_USO` and its
current-holder reference stays user 7 — the claim's "clears the resource's
current-holder reference and resets its status to available" is false. -/
theorem claim_C2_counterexample :
    (devolverBien σEjAsignado 7 "B1" 2).1 = none ∧
    findAsignacionActiva (devolverBien σEjAsignado 7 "B1" 2).2 1 7 = none ∧
    findAssetById (devolverBien σEjAsignado 7 "B1" 2).2 1 =
      some { id := 1, codigo_inventario := "B1", cantidad := 5,
             estado := EstadoBien.EN_USO, responsable_actual := some 7 } := by
  decide

/-- Claim C2 (corrected).  On a full return the record is closed and the
returned units go back to stock, but the two subsystems differ from the
claim: the asset variant deletes the assignment outright and leaves the
asset's status and current-holder exactly as they were (nothing else of the
asset changes but the quantity, and no return timestamp or receiving actor
survives, the row being gone); the library variant flags the loan
`devuelto` and records the receiving actor, all other fields (the model has
no return-timestamp field) unchanged. -/
theorem claim_C2 :
    (∀ (σ : State) (u : Nat) (cod : String) (cantidad : Int) bien asg,
       findAssetByCodigo σ cod = some bien →
       findAsignacionActiva σ bien.id u = some asg →
       0 < cantidad →
       asg.cantidad_asignada = cantidad →
       (devolverBien σ u cod cantidad).1 = none ∧
       (∀ a ∈ (devolverBien σ u cod cantidad).2.asignaciones, a.id ≠ asg.id) ∧
       findAssetById (devolverBien σ u cod cantidad).2 bien.id =
         some { bien with cantidad := bien.cantidad + cantidad }) ∧
    (∀ (σ : State) (pid : Nat) (cantidad : Option Int) (actor now : Nat) p libro,
       findPrestamoById σ pid = some p →
       p.devuelto = false →
       findLibro σ p.libro_id = some libro →
       (cantidad = none ∨ cantidad = some p.cantidad) →
       0 < p.cantidad →
       (devolverLibro σ pid cantidad actor now).1 = none ∧
       findPrestamoById (devolverLibro σ pid cantidad actor now).2 p.id =
         some { p with devuelto := true, recibido_por := some actor }) := by
  constructor
  · intro σ u cod cantidad bien asg hb ha hpos heq
    rw [devolverBien_total σ u cod cantidad bien asg hb ha hpos heq]
    have hmem : bien ∈ σ.assets := findKey_mem hb
    refine ⟨rfl, ?_, ?_⟩
    · intro a hmema
      have := (List.mem_filter.mp hmema).2
      simpa using this
    · show findKey Asset.id bien.id
        (updKey Asset.id { bien with cantidad := bien.cantidad + cantidad } σ.assets) = _
      have hm : Asset.id { bien with cantidad := bien.cantidad + cantidad } ∈
          σ.assets.map Asset.id := by
        show bien.id ∈ σ.assets.map Asset.id
        exact List.mem_map_of_mem Asset.id hmem
      exact findKey_updKey_self Asset.id _ _ hm
  · intro σ pid cantidad actor now p libro hp hnd hl hc hpos
    rw [devolverLibro_total σ pid cantidad actor now p libro hp hnd hl hc hpos]
    have hpm : p ∈ σ.prestamos := findKey_mem hp
    refine ⟨rfl, ?_⟩
    show findKey PrestamoLibro.id p.id
      (updKey PrestamoLibro.id { p with devuelto := true, recibido_por := some actor }
        σ.prestamos) = _
    have hm : PrestamoLibro.id { p with devuelto := true, recibido_por := some actor } ∈
        σ.prestamos.map PrestamoLibro.id := by
      show p.id ∈ σ.prestamos.map PrestamoLibro.id
      exact List.mem_map_of_mem PrestamoLibro.id hpm
    exact findKey_updKey_self PrestamoLibro.id _ _ hm

/-- Witness for C2 at `σEjAsignado`: the full asset return deletes the
record and leaves status/holder as they were; the full library return
flags the loan and records the receiver. -/
theorem claim_C2_witness :
    ((devolverBien σEjAsignado 7 "B1" 2).1 = none ∧
     (∀ a ∈ (devolverBien σEjAsignado 7 "B1" 2).2.asignaciones, a.id ≠ 10) ∧
     findAssetById (devolverBien σEjAsignado 7 "B1" 2).2 1 =
       some { id := 1, codigo_inventario := "B1", cantidad := 5,
              estado := EstadoBien.EN_USO, responsable_actual := some 7 }) ∧
    ((devolverLibro σEjAsignado 10 none 9 101).1 = none ∧
     findPrestamoById (devolverLibro σEjAsignado 10 none 9 101).2 10 =
       some { id := 10, libro_id := 1, usuario_id := 7, cantidad := 2,
              fecha_prestamo := 100, fecha_devolucion := none,
              prestado_por := some 9, recibido_por := some 9,
              observaciones := "", devuelto := true }) := by
  constructor
  · exact claim_C2.1 σEjAsignado 7 "B1" 2
      { id := 1, codigo_inventario := "B1", cantidad := 3,
        estado := EstadoBien.EN_USO, responsable_actual := some 7 }
      { id := 10, bien_id := 1, usuario_id := 7, tipo_asignacion := "PRESTAMO",
        cantidad_asignada := 2, estado := EstadoAsignacion.ACTIVA,
        observaciones := "", fecha_asignacion := 100,
        fecha_devolucion_programada := none }
      rfl rfl (by decide) rfl
  · exact claim_C2.2 σEjAsignado 10 none 9 101
      { id := 10, libro_id := 1, usuario_id := 7, cantidad := 2,
        fecha_prestamo := 100, fecha_devolucion := none, prestado_por := some 9,
        recibido_por := none, observaciones := "", devuelto := false }
      { id := 1, cantidad := 3 }
      rfl rfl rfl (Or.inl rfl) (by decide)



/-- Claim C3 (confirmed).  A grant whose requested quantity exceeds the
resource's available quantity fails with `InsufficientStock` and leaves the
whole database state unchanged, for asset assignments and book loans alike
(the earlier lookups must succeed, and the stored quantity is non-negative
as `PositiveIntegerField` guarantees). -/
theorem claim_C3 :
    (∀ (σ : State) (B u : Nat) (t : String) (v : Int) (obs : Option String)
       (fdp : Option Nat) (now : Nat) bien,
       findAssetById σ B = some bien →
       σ.usuarios.contains u = true →
       (t == "PRESTAMO" || t == "ASIGNACION") = true →
       0 ≤ bien.cantidad →
       bien.cantidad < v →
       crearAsignacion σ B u t (some v) obs fdp now = (some Err.insufficientStock, σ)) ∧
    (∀ (σ : State) (L u : Nat) (v : Int) (fdev : Option Nat) (obs : Option String)
       (actor now : Nat) libro,
       findLibro σ L = some libro →
       σ.usuarios.contains u = true →
       0 ≤ libro.cantidad →
       libro.cantidad < v →
       crearPrestamo σ L u v fdev obs actor now = (some Err.insufficientStock, σ)) := by
  constructor
  · intro σ B u t v obs fdp now bien hb hu ht hnn hlt
    have hnv : normCantidad (some v) = v := by
      show (if v ≤ 0 then (1 : Int) else v) = v
      rw [if_neg (by omega)]
    exact crearAsignacion_sinStock σ B u t (some v) obs fdp now bien hb hu ht
      (by rw [hnv]; exact hlt)
  · intro σ L u v fdev obs actor now libro hl hu hnn hlt
    exact crearPrestamo_sinStock σ L u v fdev obs actor now libro (by omega) hl hu hlt

/-- Witness for C3: requesting 9 of the 5 available units/copies in `σEj`
is rejected with `InsufficientStock` and the state is returned unchanged. -/
theorem claim_C3_witness :
    crearAsignacion σEj 1 7 "PRESTAMO" (some 9) none none 100
      = (some Err.insufficientStock, σEj) ∧
    crearPrestamo σEj 1 7 9 none none 9 100 = (some Err.insufficientStock, σEj) := by
  constructor
  · exact claim_C3.1 σEj 1 7 "PRESTAMO" 9 none none 100
      { id := 1, codigo_inventario := "B1", cantidad := 5,
        estado := EstadoBien.DISPONIBLE, responsable_actual := none }
      rfl rfl rfl (by decide) (by decide)
  · exact claim_C3.2 σEj 1 7 9 none none 9 100 { id := 1, cantidad := 5 }
      rfl rfl (by decide) (by decide)

/-- Claim C5 (confirmed).  A return whose quantity exceeds the custody
record's remaining quantity is rejected with `InvalidArgument` and the
whole database state is returned unchanged, for asset assignments and book
loans alike. -/
theorem claim_C5 :
    (∀ (σ : State) (u : Nat) (cod : String) (cantidad : Int) bien asg,
       findAssetByCodigo σ cod = some bien →
       findAsignacionActiva σ bien.id u = some asg →
       asg.cantidad_asignada < cantidad →
       devolverBien σ u cod cantidad = (some Err.invalidArgument, σ)) ∧
    (∀ (σ : State) (pid : Nat) (c : Int) (actor now : Nat) p,
       findPrestamoById σ pid = some p →
       p.devuelto = false →
       p.cantidad < c →
       devolverLibro σ pid (some c) actor now = (some Err.invalidArgument, σ)) := by
  constructor
  · intro σ u cod cantidad bien asg hb ha hgt
    by_cases h0 : cantidad ≤ 0
    · exact devolverBien_noPositiva σ u cod cantidad bien asg hb ha h0
    · exact devolverBien_exceso σ u cod cantidad bien asg hb ha (not_le.mp h0) hgt
  · intro σ pid c actor now p hp hnd hgt
    by_cases h0 : c ≤ 0
    · exact devolverLibro_noPositiva σ pid (some c) actor now p hp hnd h0
    · exact devolverLibro_exceso σ pid c actor now p hp hnd (not_le.mp h0) hgt

/-- Witness for C5 at `σEjAsignado`: returning 3 against custody records
holding 2 is rejected and the state is unchanged. -/
theorem claim_C5_witness :
    devolverBien σEjAsignado 7 "B1" 3 = (some Err.invalidArgument, σEjAsignado) ∧
    devolverLibro σEjAsignado 10 (some 3) 9 101
      = (some Err.invalidArgument, σEjAsignado) := by
  constructor
  · exact claim_C5.1 σEjAsignado 7 "B1" 3
      { id := 1, codigo_inventario := "B1", cantidad := 3,
        estado := EstadoBien.EN_USO, responsable_actual := some 7 }
      { id := 10, bien_id := 1, usuario_id := 7, tipo_asignacion := "PRESTAMO",
        cantidad_asignada := 2, estado := EstadoAsignacion.ACTIVA,
        observaciones := "", fecha_asignacion := 100,
        fecha_devolucion_programada := none }
      rfl rfl (by decide)
  · exact claim_C5.2 σEjAsignado 10 3 9 101
      { id := 10, libro_id := 1, usuario_id := 7, cantidad := 2,
        fecha_prestamo := 100, fecha_devolucion := none, prestado_por := some 9,
        recibido_por := none, observaciones := "", devuelto := false }
      rfl rfl (by decide)

/-- Counterexample to claim C6 as stated.  `EliminarBien` with the
non-positive removal delta -3 on `σEj` does not fail with
`InvalidArgument`: it succeeds and the asset's stock grows from 5 to 8. -/
theorem claim_C6_counterexample :
    (eliminarBien σEj "B1" (some (-3))).1 = none ∧
    findAssetByCodigo (eliminarBien σEj "B1" (some (-3))).2 "B1" =
      some { id := 1, codigo_inventario := "B1", cantidad := 8,
             estado := EstadoBien.DISPONIBLE, responsable_actual := none } := by
  decide

/-- Claim C6 (corrected).  `EliminarCantidadLibro` does reject a
non-positive removal delta with `InvalidArgument`, leaving the book
unchanged; `EliminarBien` performs no such validation: a non-positive
`cantidad` flows through the ordinary rules, so with `cantidad < stock` the
delta is subtracted (increasing stock for a negative delta) and with
`stock ≤ cantidad` the asset is deleted outright. -/
theorem claim_C6 :
    (∀ (σ : State) (L : Nat) (cantidad : Int) libro,
       findLibro σ L = some libro →
       cantidad ≤ 0 →
       eliminarCantidadLibro σ L cantidad = (some Err.invalidArgument, σ)) ∧
    (∀ (σ : State) (cod : String) (c : Int) bien,
       findAssetByCodigo σ cod = some bien →
       c ≤ 0 →
       c < bien.cantidad →
       eliminarBien σ cod (some c) =
         (none, saveAsset { bien with cantidad := bien.cantidad - c } σ)) ∧
    (∀ (σ : State) (cod : String) (c : Int) bien,
       findAssetByCodigo σ cod = some bien →
       c ≤ 0 →
       bien.cantidad ≤ c →
       eliminarBien σ cod (some c) = (none, deleteAsset bien.id σ)) := by
  refine ⟨?_, ?_, ?_⟩
  · intro σ L cantidad libro hl hc
    exact eliminarCantidadLibro_noPositivo σ L cantidad libro hl hc
  · intro σ cod c bien hb hc hlt
    exact eliminarBien_resta σ cod c bien hb hlt
  · intro σ cod c bien hb hc hle
    exact eliminarBien_todo σ cod (some c) bien hb (Or.inr ⟨c, rfl, hle⟩)

/-- Witness for C6: the library mutation rejects delta -3 on `σEj`; the
asset mutation accepts it and writes stock 5 - (-3) = 8. -/
theorem claim_C6_witness :
    eliminarCantidadLibro σEj 1 (-3) = (some Err.invalidArgument, σEj) ∧
    eliminarBien σEj "B1" (some (-3)) =
      (none, saveAsset { id := 1, codigo_inventario := "B1", cantidad := 8,
                         estado := EstadoBien.DISPONIBLE,
                         responsable_actual := none } σEj) ∧
    eliminarBien { σEj with
        assets := [{ id := 1, codigo_inventario := "B1", cantidad := -1,
                     estado := EstadoBien.DISPONIBLE,
                     responsable_actual := none }] } "B1" (some (-1))
      = (none, deleteAsset 1 { σEj with
          assets := [{ id := 1, codigo_inventario := "B1", cantidad := -1,
                       estado := EstadoBien.DISPONIBLE,
                       responsable_actual := none }] }) := by
  refine ⟨?_, ?_, ?_⟩
  · exact claim_C6.1 σEj 1 (-3) { id := 1, cantidad := 5 } rfl (by decide)
  · have h := claim_C6.2.1 σEj "B1" (-3)
      { id := 1, codigo_inventario := "B1", cantidad := 5,
        estado := EstadoBien.DISPONIBLE, responsable_actual := none }
      rfl (by decide) (by decide)
    exact h
  · exact claim_C6.2.2 { σEj with
        assets := [{ id := 1, codigo_inventario := "B1", cantidad := -1,
                     estado := EstadoBien.DISPONIBLE,
                     responsable_actual := none }] } "B1" (-1)
      { id := 1, codigo_inventario := "B1", cantidad := -1,
        estado := EstadoBien.DISPONIBLE, responsable_actual := none }
      rfl (by decide) (by decide)



/-- Claim C9 (confirmed).  An asset grant whose requested quantity is
omitted, zero, or negative does not fail on the quantity: the request is
processed exactly as a grant of one unit (the two calls are equal as
functions of the state, errors and all). -/
theorem claim_C9 (σ : State) (B u : Nat) (t : String) (c : Option Int)
    (obs : Option String) (fdp : Option Nat) (now : Nat)
    (hc : c = none ∨ ∃ v, c = some v ∧ v ≤ 0) :
    crearAsignacion σ B u t c obs fdp now
      = crearAsignacion σ B u t (some 1) obs fdp now := by
  have h : normCantidad c = normCantidad (some 1) := by
    rcases hc with h | ⟨v, h, hv⟩ <;> subst h
    · show (1 : Int) = if (1 : Int) ≤ 0 then 1 else 1
      simp
    · show (if v ≤ 0 then (1 : Int) else v) = if (1 : Int) ≤ 0 then 1 else 1
      rw [if_pos hv]
      simp
  unfold crearAsignacion
  rw [h]

/-- Witness for C9: on `σEj` a grant with quantity 0 behaves exactly as a
grant of one unit. -/
theorem claim_C9_witness :
    crearAsignacion σEj 1 7 "PRESTAMO" (some 0) none none 100
      = crearAsignacion σEj 1 7 "PRESTAMO" (some 1) none none 100 :=
  claim_C9 σEj 1 7 "PRESTAMO" (some 0) none none 100
    (Or.inr ⟨0, rfl, by decide⟩)

/-- Claim C10 (confirmed).  Deleting a resource (`EliminarBien` with no
quantity or with quantity at least the current stock;
`EliminarCantidadLibro` driving the stock to zero or below with a positive
delta) also deletes every custody record referencing it — active records
included, which simply vanish from the ledger with no return recorded (all
other rows are untouched, as the `delKey` equalities show). -/
theorem claim_C10 :
    (∀ (σ : State) (cod : String) (cantidad : Option Int) bien,
       findAssetByCodigo σ cod = some bien →
       (cantidad = none ∨ ∃ c, cantidad = some c ∧ bien.cantidad ≤ c) →
       (eliminarBien σ cod cantidad).1 = none ∧
       (eliminarBien σ cod cantidad).2.assets = delKey Asset.id bien.id σ.assets ∧
       (eliminarBien σ cod cantidad).2.asignaciones =
         delKey AssetAssignment.bien_id bien.id σ.asignaciones ∧
       (∀ a ∈ σ.asignaciones, a.bien_id = bien.id →
         a ∉ (eliminarBien σ cod cantidad).2.asignaciones)) ∧
    (∀ (σ : State) (L : Nat) (cantidad : Int) libro,
       findLibro σ L = some libro →
       0 < cantidad →
       libro.cantidad ≤ cantidad →
       (eliminarCantidadLibro σ L cantidad).1 = none ∧
       (eliminarCantidadLibro σ L cantidad).2.libros = delKey Libro.id libro.id σ.libros ∧
       (eliminarCantidadLibro σ L cantidad).2.prestamos =
         delKey PrestamoLibro.libro_id libro.id σ.prestamos ∧
       (∀ p ∈ σ.prestamos, p.libro_id = libro.id →
         p ∉ (eliminarCantidadLibro σ L cantidad).2.prestamos)) := by
  constructor
  · intro σ cod cantidad bien hb hc
    rw [eliminarBien_todo σ cod cantidad bien hb hc]
    refine ⟨rfl, rfl, rfl, ?_⟩
    intro a hmem href hmem'
    have := (List.mem_filter.mp hmem').2
    simp only [bne_iff_ne, ne_eq] at this
    exact this href
  · intro σ L cantidad libro hl hpos hle
    rw [eliminarCantidadLibro_borra σ L cantidad libro hl hpos hle]
    refine ⟨rfl, rfl, rfl, ?_⟩
    intro p hmem href hmem'
    have := (List.mem_filter.mp hmem').2
    simp only [bne_iff_ne, ne_eq] at this
    exact this href

/-- Witness for C10 at `σEjAsignado`: deleting asset "B1" (no quantity) and
removing 5 copies of book 1 (stock 3) cascade-delete the active assignment
and the unreturned loan. -/
theorem claim_C10_witness :
    ((eliminarBien σEjAsignado "B1" none).1 = none ∧
     (eliminarBien σEjAsignado "B1" none).2.assets =
       delKey Asset.id 1 σEjAsignado.assets ∧
     (eliminarBien σEjAsignado "B1" none).2.asignaciones =
       delKey AssetAssignment.bien_id 1 σEjAsignado.asignaciones ∧
     (∀ a ∈ σEjAsignado.asignaciones, a.bien_id = 1 →
       a ∉ (eliminarBien σEjAsignado "B1" none).2.asignaciones)) ∧
    ((eliminarCantidadLibro σEjAsignado 1 5).1 = none ∧
     (eliminarCantidadLibro σEjAsignado 1 5).2.libros =
       delKey Libro.id 1 σEjAsignado.libros ∧
     (eliminarCantidadLibro σEjAsignado 1 5).2.prestamos =
       delKey PrestamoLibro.libro_id 1 σEjAsignado.prestamos ∧
     (∀ p ∈ σEjAsignado.prestamos, p.libro_id = 1 →
       p ∉ (eliminarCantidadLibro σEjAsignado 1 5).2.prestamos)) := by
  constructor
  · exact claim_C10.1 σEjAsignado "B1" none
      { id := 1, codigo_inventario := "B1", cantidad := 3,
        estado := EstadoBien.EN_USO, responsable_actual := some 7 }
      rfl (Or.inl rfl)
  · exact claim_C10.2 σEjAsignado 1 5 { id := 1, cantidad := 3 }
      rfl (by decide) (by decide)



/-- Counterexample to claim C7 as stated.  Granting one unit of the damaged
(`DANADO`) asset of `σEjDanado` succeeds and overwrites the asset's status
to `EN_USO` (and installs user 7 as holder): a custody operation does
overwrite the externally set terminal state. -/
theorem claim_C7_counterexample :
    (crearAsignacion σEjDanado 1 7 "PRESTAMO" (some 1) none none 100).1 = none ∧
    findAssetById (crearAsignacion σEjDanado 1 7 "PRESTAMO" (some 1) none none 100).2 1 =
      some { id := 1, codigo_inventario := "B1", cantidad := 4,
             estado := EstadoBien.EN_USO, responsable_actual := some 7 } := by
  decide

/-- Claim C7 (corrected).  Book custody operations cannot change a status
(books carry none).  For assets the claim only holds on two of the four
paths: a full return and a consolidating grant leave `estado` and
`responsable_actual` exactly as they were (the latter because the stale
mutate-local asset object is saved last), while a grant that creates a new
assignment and a partial return overwrite `estado` to `EN_USO` and
`responsable_actual` to the holder — even when the status was the
externally set `DANADO` or `BAJA`. -/
theorem claim_C7 :
    (∀ (σ : State) (B u : Nat) (t : String) (c : Option Int) (obs : Option String)
       (fdp : Option Nat) (now : Nat) bien,
       findAssetById σ B = some bien →
       σ.usuarios.contains u = true →
       (t == "PRESTAMO" || t == "ASIGNACION") = true →
       ¬ bien.cantidad < normCantidad c →
       findAsignacionActiva σ B u = none →
       findAssetById (crearAsignacion σ B u t c obs fdp now).2 B =
         some { bien with
                cantidad := bien.cantidad - normCantidad c,
                estado := EstadoBien.EN_USO,
                responsable_actual := some u }) ∧
    (∀ (σ : State) (B u : Nat) (t : String) (c : Option Int) (obs : Option String)
       (fdp : Option Nat) (now : Nat) bien ae,
       findAssetById σ B = some bien →
       σ.usuarios.contains u = true →
       (t == "PRESTAMO" || t == "ASIGNACION") = true →
       ¬ bien.cantidad < normCantidad c →
       findAsignacionActiva σ B u = some ae →
       findAssetById (crearAsignacion σ B u t c obs fdp now).2 B =
         some { bien with cantidad := bien.cantidad - normCantidad c }) ∧
    (∀ (σ : State) (u : Nat) (cod : String) (cantidad : Int) bien asg,
       findAssetByCodigo σ cod = some bien →
       findAsignacionActiva σ bien.id u = some asg →
       0 < cantidad →
       cantidad < asg.cantidad_asignada →
       findAssetById (devolverBien σ u cod cantidad).2 bien.id =
         some { bien with
                cantidad := bien.cantidad + cantidad,
                estado := EstadoBien.EN_USO,
                responsable_actual := some u }) ∧
    (∀ (σ : State) (u : Nat) (cod : String) (cantidad : Int) bien asg,
       findAssetByCodigo σ cod = some bien →
       findAsignacionActiva σ bien.id u = some asg →
       0 < cantidad →
       asg.cantidad_asignada = cantidad →
       findAssetById (devolverBien σ u cod cantidad).2 bien.id =
         some { bien with cantidad := bien.cantidad + cantidad }) := by
  refine ⟨?_, ?_, ?_, ?_⟩
  · intro σ B u t c obs fdp now bien hb hu ht hstock hae
    rw [crearAsignacion_nueva σ B u t c obs fdp now bien hb hu ht hstock hae]
    have hBid : bien.id = B := findKey_key hb
    have hmem : bien ∈ σ.assets := findKey_mem hb
    show findKey Asset.id B
        (updKey Asset.id { bien with
            cantidad := bien.cantidad - normCantidad c,
            estado := EstadoBien.EN_USO,
            responsable_actual := some u }
          (updKey Asset.id { bien with
              estado := EstadoBien.EN_USO,
              responsable_actual := some u } σ.assets)) = _
    rw [← hBid]
    have hm : Asset.id { bien with
        cantidad := bien.cantidad - normCantidad c,
        estado := EstadoBien.EN_USO,
        responsable_actual := some u } ∈
        (updKey Asset.id { bien with
            estado := EstadoBien.EN_USO,
            responsable_actual := some u } σ.assets).map Asset.id := by
      rw [updKey_map_key]
      show bien.id ∈ σ.assets.map Asset.id
      exact List.mem_map_of_mem Asset.id hmem
    exact findKey_updKey_self Asset.id _ _ hm
  · intro σ B u t c obs fdp now bien ae hb hu ht hstock hae
    rw [crearAsignacion_consolida σ B u t c obs fdp now bien ae hb hu ht hstock hae]
    have hBid : bien.id = B := findKey_key hb
    have hmem : bien ∈ σ.assets := findKey_mem hb
    show findKey Asset.id B
        (updKey Asset.id { bien with cantidad := bien.cantidad - normCantidad c }
          (updKey Asset.id { bien with
              estado := EstadoBien.EN_USO,
              responsable_actual := some u } σ.assets)) = _
    rw [← hBid]
    have hm : Asset.id { bien with cantidad := bien.cantidad - normCantidad c } ∈
        (updKey Asset.id { bien with
            estado := EstadoBien.EN_USO,
            responsable_actual := some u } σ.assets).map Asset.id := by
      rw [updKey_map_key]
      show bien.id ∈ σ.assets.map Asset.id
      exact List.mem_map_of_mem Asset.id hmem
    exact findKey_updKey_self Asset.id _ _ hm
  · intro σ u cod cantidad bien asg hb ha hpos hlt
    rw [devolverBien_parcial σ u cod cantidad bien asg hb ha hpos hlt]
    have hmem : bien ∈ σ.assets := findKey_mem hb
    show findKey Asset.id bien.id
        (updKey Asset.id { bien with
            cantidad := bien.cantidad + cantidad,
            estado := EstadoBien.EN_USO,
            responsable_actual := some u }
          (updKey Asset.id { bien with cantidad := bien.cantidad + cantidad }
            σ.assets)) = _
    have hm : Asset.id { bien with
        cantidad := bien.cantidad + cantidad,
        estado := EstadoBien.EN_USO,
        responsable_actual := some u } ∈
        (updKey Asset.id { bien with cantidad := bien.cantidad + cantidad }
          σ.assets).map Asset.id := by
      rw [updKey_map_key]
      show bien.id ∈ σ.assets.map Asset.id
      exact List.mem_map_of_mem Asset.id hmem
    exact findKey_updKey_self Asset.id _ _ hm
  · intro σ u cod cantidad bien asg hb ha hpos heq
    rw [devolverBien_total σ u cod cantidad bien asg hb ha hpos heq]
    have hmem : bien ∈ σ.assets := findKey_mem hb
    show findKey Asset.id bien.id
        (updKey Asset.id { bien with cantidad := bien.cantidad + cantidad } σ.assets) = _
    have hm : Asset.id { bien with cantidad := bien.cantidad + cantidad } ∈
        σ.assets.map Asset.id := by
      show bien.id ∈ σ.assets.map Asset.id
      exact List.mem_map_of_mem Asset.id hmem
    exact findKey_updKey_self Asset.id _ _ hm

/-- Witness for C7: on the damaged asset of `σEjDanado` a first grant
overwrites the status to `EN_USO`; on `σEjAsignado` a consolidating grant
and a full return leave status and holder as they were, and a partial
return rewrites them. -/
theorem claim_C7_witness :
    (findAssetById (crearAsignacion σEjDanado 1 7 "PRESTAMO" (some 1) none none 100).2 1 =
      some { id := 1, codigo_inventario := "B1", cantidad := 4,
             estado := EstadoBien.EN_USO, responsable_actual := some 7 }) ∧
    (findAssetById (crearAsignacion σEjAsignado 1 7 "PRESTAMO" (some 1) none none 101).2 1 =
      some { id := 1, codigo_inventario := "B1", cantidad := 2,
             estado := EstadoBien.EN_USO, responsable_actual := some 7 }) ∧
    (findAssetById (devolverBien σEjAsignado 7 "B1" 1).2 1 =
      some { id := 1, codigo_inventario := "B1", cantidad := 4,
             estado := EstadoBien.EN_USO, responsable_actual := some 7 }) ∧
    (findAssetById (devolverBien σEjAsignado 7 "B1" 2).2 1 =
      some { id := 1, codigo_inventario := "B1", cantidad := 5,
             estado := EstadoBien.EN_USO, responsable_actual := some 7 }) := by
  refine ⟨?_, ?_, ?_, ?_⟩
  · exact claim_C7.1 σEjDanado 1 7 "PRESTAMO" (some 1) none none 100
      { id := 1, codigo_inventario := "B1", cantidad := 5,
        estado := EstadoBien.DANADO, responsable_actual := none }
      rfl rfl rfl (by decide) rfl
  · exact claim_C7.2.1 σEjAsignado 1 7 "PRESTAMO" (some 1) none none 101
      { id := 1, codigo_inventario := "B1", cantidad := 3,
        estado := EstadoBien.EN_USO, responsable_actual := some 7 }
      { id := 10, bien_id := 1, usuario_id := 7, tipo_asignacion := "PRESTAMO",
        cantidad_asignada := 2, estado := EstadoAsignacion.ACTIVA,
        observaciones := "", fecha_asignacion := 100,
        fecha_devolucion_programada := none }
      rfl rfl rfl (by decide) rfl
  · exact claim_C7.2.2.1 σEjAsignado 7 "B1" 1
      { id := 1, codigo_inventario := "B1", cantidad := 3,
        estado := EstadoBien.EN_USO, responsable_actual := some 7 }
      { id := 10, bien_id := 1, usuario_id := 7, tipo_asignacion := "PRESTAMO",
        cantidad_asignada := 2, estado := EstadoAsignacion.ACTIVA,
        observaciones := "", fecha_asignacion := 100,
        fecha_devolucion_programada := none }
      rfl rfl (by decide) (by decide)
  · exact claim_C7.2.2.2 σEjAsignado 7 "B1" 2
      { id := 1, codigo_inventario := "B1", cantidad := 3,
        estado := EstadoBien.EN_USO, responsable_actual := some 7 }
      { id := 10, bien_id := 1, usuario_id := 7, tipo_asignacion := "PRESTAMO",
        cantidad_asignada := 2, estado := EstadoAsignacion.ACTIVA,
        observaciones := "", fecha_asignacion := 100,
        fecha_devolucion_programada := none }
      rfl rfl (by decide) rfl



/-- Counterexample to claim C8 as stated.  In `σEjAsignado` loan 10 was
granted at time 100; a consolidating `CrearPrestamo` at time 777 resets the
loan's `fecha_prestamo` to 777 — the grant timestamp is not immutable. -/
theorem claim_C8_counterexample :
    (findPrestamoById σEjAsignado 10).map PrestamoLibro.fecha_prestamo = some 100 ∧
    (findPrestamoById (crearPrestamo σEjAsignado 1 7 1 none none 9 777).2 10).map
      PrestamoLibro.fecha_prestamo = some 777 := by
  decide

/-- Claim C8 (corrected).  The grant timestamp of a custody record is
unchanged by an asset consolidating grant, an asset partial return, and a
library partial or full return; but a consolidating library grant
(`CrearPrestamo` on an existing unreturned loan) reassigns `fecha_prestamo`
to the current time, which the row update persists. -/
theorem claim_C8 :
    (∀ (σ : State) (B u : Nat) (t : String) (c : Option Int) (obs : Option String)
       (fdp : Option Nat) (now : Nat) bien ae,
       findAssetById σ B = some bien →
       σ.usuarios.contains u = true →
       (t == "PRESTAMO" || t == "ASIGNACION") = true →
       ¬ bien.cantidad < normCantidad c →
       findAsignacionActiva σ B u = some ae →
       (findAsignacionById (crearAsignacion σ B u t c obs fdp now).2 ae.id).map
         AssetAssignment.fecha_asignacion = some ae.fecha_asignacion) ∧
    (∀ (σ : State) (u : Nat) (cod : String) (cantidad : Int) bien asg,
       findAssetByCodigo σ cod = some bien →
       findAsignacionActiva σ bien.id u = some asg →
       0 < cantidad →
       cantidad < asg.cantidad_asignada →
       (findAsignacionById (devolverBien σ u cod cantidad).2 asg.id).map
         AssetAssignment.fecha_asignacion = some asg.fecha_asignacion) ∧
    (∀ (σ : State) (pid : Nat) (c : Int) (actor now : Nat) p libro,
       findPrestamoById σ pid = some p →
       p.devuelto = false →
       findLibro σ p.libro_id = some libro →
       0 < c →
       c < p.cantidad →
       (findPrestamoById (devolverLibro σ pid (some c) actor now).2 p.id).map
         PrestamoLibro.fecha_prestamo = some p.fecha_prestamo) ∧
    (∀ (σ : State) (pid : Nat) (cantidad : Option Int) (actor now : Nat) p libro,
       findPrestamoById σ pid = some p →
       p.devuelto = false →
       findLibro σ p.libro_id = some libro →
       (cantidad = none ∨ cantidad = some p.cantidad) →
       0 < p.cantidad →
       (findPrestamoById (devolverLibro σ pid cantidad actor now).2 p.id).map
         PrestamoLibro.fecha_prestamo = some p.fecha_prestamo) ∧
    (∀ (σ : State) (L u : Nat) (cantidad : Int) (fdev : Option Nat)
       (obs : Option String) (actor now : Nat) libro pe,
       0 < cantidad →
       findLibro σ L = some libro →
       σ.usuarios.contains u = true →
       ¬ libro.cantidad < cantidad →
       findPrestamoActivo σ u L = some pe →
       (findPrestamoById (crearPrestamo σ L u cantidad fdev obs actor now).2 pe.id).map
         PrestamoLibro.fecha_prestamo = some now) := by
  refine ⟨?_, ?_, ?_, ?_, ?_⟩
  · intro σ B u t c obs fdp now bien ae hb hu ht hstock hae
    rw [crearAsignacion_consolida σ B u t c obs fdp now bien ae hb hu ht hstock hae]
    have hmem : ae ∈ σ.asignaciones := (findAsignacionActiva_facts hae).1
    have hfind : findAsignacionById
        (saveAsset { bien with cantidad := bien.cantidad - normCantidad c }
          (saveAsset { bien with
              estado := EstadoBien.EN_USO,
              responsable_actual := some u }
            (writeAsignacion (asgConsolidada ae (normCantidad c) obs fdp) σ))) ae.id
        = some (asgConsolidada ae (normCantidad c) obs fdp) := by
      show findKey AssetAssignment.id ae.id
          (updKey AssetAssignment.id (asgConsolidada ae (normCantidad c) obs fdp)
            σ.asignaciones) = _
      have hm : AssetAssignment.id (asgConsolidada ae (normCantidad c) obs fdp) ∈
          σ.asignaciones.map AssetAssignment.id := by
        show ae.id ∈ σ.asignaciones.map AssetAssignment.id
        exact List.mem_map_of_mem AssetAssignment.id hmem
      exact findKey_updKey_self AssetAssignment.id _ _ hm
    rw [hfind]
    rfl
  · intro σ u cod cantidad bien asg hb ha hpos hlt
    rw [devolverBien_parcial σ u cod cantidad bien asg hb ha hpos hlt]
    have hmem : asg ∈ σ.asignaciones := (findAsignacionActiva_facts ha).1
    have hfind : findAsignacionById
        (saveAsset { bien with
            cantidad := bien.cantidad + cantidad,
            estado := EstadoBien.EN_USO,
            responsable_actual := some u }
          (writeAsignacion { asg with cantidad_asignada := asg.cantidad_asignada - cantidad }
            (saveAsset { bien with cantidad := bien.cantidad + cantidad } σ))) asg.id
        = some { asg with cantidad_asignada := asg.cantidad_asignada - cantidad } := by
      show findKey AssetAssignment.id asg.id
          (updKey AssetAssignment.id
            { asg with cantidad_asignada := asg.cantidad_asignada - cantidad }
            σ.asignaciones) = _
      have hm : AssetAssignment.id
          { asg with cantidad_asignada := asg.cantidad_asignada - cantidad } ∈
          σ.asignaciones.map AssetAssignment.id := by
        show asg.id ∈ σ.asignaciones.map AssetAssignment.id
        exact List.mem_map_of_mem AssetAssignment.id hmem
      exact findKey_updKey_self AssetAssignment.id _ _ hm
    rw [hfind]
    rfl
  · intro σ pid c actor now p libro hp hnd hl hpos hlt
    rw [devolverLibro_parcial σ pid c actor now p libro hp hnd hl hpos hlt]
    have hpm : p ∈ σ.prestamos := findKey_mem hp
    have hfind : findPrestamoById
        (writePrestamo
          { p with
            cantidad := p.cantidad - c,
            recibido_por := some actor,
            observaciones := p.observaciones ++ "\n[" ++ toString now
              ++ "] devolucion parcial de " ++ toString c }
          (saveLibro { libro with cantidad := libro.cantidad + c } σ)) p.id
        = some { p with
            cantidad := p.cantidad - c,
            recibido_por := some actor,
            observaciones := p.observaciones ++ "\n[" ++ toString now
              ++ "] devolucion parcial de " ++ toString c } := by
      show findKey PrestamoLibro.id p.id
          (updKey PrestamoLibro.id _ σ.prestamos) = _
      have hm : PrestamoLibro.id
          { p with
            cantidad := p.cantidad - c,
            recibido_por := some actor,
            observaciones := p.observaciones ++ "\n[" ++ toString now
              ++ "] devolucion parcial de " ++ toString c } ∈
          σ.prestamos.map PrestamoLibro.id := by
        show p.id ∈ σ.prestamos.map PrestamoLibro.id
        exact List.mem_map_of_mem PrestamoLibro.id hpm
      exact findKey_updKey_self PrestamoLibro.id _ _ hm
    rw [hfind]
    rfl
  · intro σ pid cantidad actor now p libro hp hnd hl hc hpos
    rw [devolverLibro_total σ pid cantidad actor now p libro hp hnd hl hc hpos]
    have hpm : p ∈ σ.prestamos := findKey_mem hp
    have hfind : findPrestamoById
        (writePrestamo { p with devuelto := true, recibido_por := some actor }
          (saveLibro { libro with cantidad := libro.cantidad + p.cantidad } σ)) p.id
        = some { p with devuelto := true, recibido_por := some actor } := by
      show findKey PrestamoLibro.id p.id
          (updKey PrestamoLibro.id _ σ.prestamos) = _
      have hm : PrestamoLibro.id { p with devuelto := true, recibido_por := some actor } ∈
          σ.prestamos.map PrestamoLibro.id := by
        show p.id ∈ σ.prestamos.map PrestamoLibro.id
        exact List.mem_map_of_mem PrestamoLibro.id hpm
      exact findKey_updKey_self PrestamoLibro.id _ _ hm
    rw [hfind]
    rfl
  · intro σ L u cantidad fdev obs actor now libro pe hpos hl hu hstock hpe
    rw [crearPrestamo_consolida σ L u cantidad fdev obs actor now libro pe
      hpos hl hu hstock hpe]
    have hpm : pe ∈ σ.prestamos := (findPrestamoActivo_facts hpe).1
    have hfind : findPrestamoById
        (saveLibro { libro with cantidad := libro.cantidad - cantidad }
          (writePrestamo (prestamoConsolidado pe cantidad obs now) σ)) pe.id
        = some (prestamoConsolidado pe cantidad obs now) := by
      show findKey PrestamoLibro.id pe.id
          (updKey PrestamoLibro.id (prestamoConsolidado pe cantidad obs now)
            σ.prestamos) = _
      have hm : PrestamoLibro.id (prestamoConsolidado pe cantidad obs now) ∈
          σ.prestamos.map PrestamoLibro.id := by
        show pe.id ∈ σ.prestamos.map PrestamoLibro.id
        exact List.mem_map_of_mem PrestamoLibro.id hpm
      exact findKey_updKey_self PrestamoLibro.id _ _ hm
    rw [hfind]
    rfl

/-- Witness for C8 on `σEjAsignado` (both custody rows were granted at time
100): asset consolidation, asset partial return, and both library returns
keep timestamp 100; library consolidation at time 777 rewrites it to 777. -/
theorem claim_C8_witness :
    ((findAsignacionById (crearAsignacion σEjAsignado 1 7 "PRESTAMO" (some 1)
        none none 101).2 10).map AssetAssignment.fecha_asignacion = some 100) ∧
    ((findAsignacionById (devolverBien σEjAsignado 7 "B1" 1).2 10).map
      AssetAssignment.fecha_asignacion = some 100) ∧
    ((findPrestamoById (devolverLibro σEjAsignado 10 (some 1) 9 101).2 10).map
      PrestamoLibro.fecha_prestamo = some 100) ∧
    ((findPrestamoById (devolverLibro σEjAsignado 10 none 9 101).2 10).map
      PrestamoLibro.fecha_prestamo = some 100) ∧
    ((findPrestamoById (crearPrestamo σEjAsignado 1 7 1 none none 9 777).2 10).map
      PrestamoLibro.fecha_prestamo = some 777) := by
  refine ⟨?_, ?_, ?_, ?_, ?_⟩
  · exact claim_C8.1 σEjAsignado 1 7 "PRESTAMO" (some 1) none none 101
      { id := 1, codigo_inventario := "B1", cantidad := 3,
        estado := EstadoBien.EN_USO, responsable_actual := some 7 }
      { id := 10, bien_id := 1, usuario_id := 7, tipo_asignacion := "PRESTAMO",
        cantidad_asignada := 2, estado := EstadoAsignacion.ACTIVA,
        observaciones := "", fecha_asignacion := 100,
        fecha_devolucion_programada := none }
      rfl rfl rfl (by decide) rfl
  · exact claim_C8.2.1 σEjAsignado 7 "B1" 1
      { id := 1, codigo_inventario := "B1", cantidad := 3,
        estado := EstadoBien.EN_USO, responsable_actual := some 7 }
      { id := 10, bien_id := 1, usuario_id := 7, tipo_asignacion := "PRESTAMO",
        cantidad_asignada := 2, estado := EstadoAsignacion.ACTIVA,
        observaciones := "", fecha_asignacion := 100,
        fecha_devolucion_programada := none }
      rfl rfl (by decide) (by decide)
  · exact claim_C8.2.2.1 σEjAsignado 10 1 9 101
      { id := 10, libro_id := 1, usuario_id := 7, cantidad := 2,
        fecha_prestamo := 100, fecha_devolucion := none, prestado_por := some 9,
        recibido_por := none, observaciones := "", devuelto := false }
      { id := 1, cantidad := 3 }
      rfl rfl rfl (by decide) (by decide)
  · exact claim_C8.2.2.2.1 σEjAsignado 10 none 9 101
      { id := 10, libro_id := 1, usuario_id := 7, cantidad := 2,
        fecha_prestamo := 100, fecha_devolucion := none, prestado_por := some 9,
        recibido_por := none, observaciones := "", devuelto := false }
      { id := 1, cantidad := 3 }
      rfl rfl rfl (Or.inl rfl) (by decide)
  · exact claim_C8.2.2.2.2 σEjAsignado 1 7 1 none none 9 777
      { id := 1, cantidad := 3 }
      { id := 10, libro_id := 1, usuario_id := 7, cantidad := 2,
        fecha_prestamo := 100, fecha_devolucion := none, prestado_por := some 9,
        recibido_por := none, observaciones := "", devuelto := false }
      (by decide) rfl rfl (by decide) rfl



/-- Claim C4 (confirmed).  Granting quantity `a` and then, with no return
in between, quantity `b` for the same (resource, holder) pair yields
exactly one active custody record for that pair, holding `a + b`; no second
record is created.  Stated for asset assignments and book loans, on any
well-formed state with enough stock and no prior active record for the
pair. -/
theorem claim_C4 :
    (∀ (σ : State) (B u : Nat) (t₁ t₂ : String) (a b : Int)
       (obs₁ obs₂ : Option String) (fdp₁ fdp₂ : Option Nat) (now₁ now₂ : Nat) bien,
       WF σ →
       findAssetById σ B = some bien →
       σ.usuarios.contains u = true →
       (t₁ == "PRESTAMO" || t₁ == "ASIGNACION") = true →
       (t₂ == "PRESTAMO" || t₂ == "ASIGNACION") = true →
       findAsignacionActiva σ B u = none →
       0 < a → 0 < b → a + b ≤ bien.cantidad →
       (((crearAsignacion (crearAsignacion σ B u t₁ (some a) obs₁ fdp₁ now₁).2
           B u t₂ (some b) obs₂ fdp₂ now₂).2.asignaciones.filter
         (fun x => x.bien_id == B && x.usuario_id == u &&
           x.estado == EstadoAsignacion.ACTIVA)).map
         AssetAssignment.cantidad_asignada) = [a + b]) ∧
    (∀ (σ : State) (L u : Nat) (a b : Int) (fd₁ fd₂ : Option Nat)
       (obs₁ obs₂ : Option String) (act₁ act₂ now₁ now₂ : Nat) libro,
       WF σ →
       findLibro σ L = some libro →
       σ.usuarios.contains u = true →
       findPrestamoActivo σ u L = none →
       0 < a → 0 < b → a + b ≤ libro.cantidad →
       (((crearPrestamo (crearPrestamo σ L u a fd₁ obs₁ act₁ now₁).2
           L u b fd₂ obs₂ act₂ now₂).2.prestamos.filter
         (fun x => x.usuario_id == u && x.libro_id == L && !x.devuelto)).map
         PrestamoLibro.cantidad) = [a + b]) := by
  constructor
  · intro σ B u t₁ t₂ a b obs₁ obs₂ fdp₁ fdp₂ now₁ now₂ bien hwf hb hu ht₁ ht₂ hae ha hbpos hab
    have hBid : bien.id = B := findKey_key hb
    have hmem : bien ∈ σ.assets := findKey_mem hb
    have hna : normCantidad (some a) = a := by
      show (if a ≤ 0 then (1 : Int) else a) = a
      rw [if_neg (by omega)]
    have hnb : normCantidad (some b) = b := by
      show (if b ≤ 0 then (1 : Int) else b) = b
      rw [if_neg (by omega)]
    have hstock₁ : ¬ bien.cantidad < normCantidad (some a) := by
      rw [hna]; omega
    rw [crearAsignacion_nueva σ B u t₁ (some a) obs₁ fdp₁ now₁ bien hb hu ht₁ hstock₁ hae]
    simp only [hna]
    have hb₂ : findAssetById
        (saveAsset { bien with
            cantidad := bien.cantidad - a,
            estado := EstadoBien.EN_USO,
            responsable_actual := some u }
          (saveAsset { bien with
              estado := EstadoBien.EN_USO,
              responsable_actual := some u }
            (insertAsignacion (nuevaAsignacion σ B u t₁ a obs₁ fdp₁ now₁) σ))) B
        = some { bien with
            cantidad := bien.cantidad - a,
            estado := EstadoBien.EN_USO,
            responsable_actual := some u } := by
      show findKey Asset.id B
          (updKey Asset.id { bien with
              cantidad := bien.cantidad - a,
              estado := EstadoBien.EN_USO,
              responsable_actual := some u }
            (updKey Asset.id { bien with
                estado := EstadoBien.EN_USO,
                responsable_actual := some u } σ.assets)) = _
      rw [← hBid]
      have hm : Asset.id { bien with
          cantidad := bien.cantidad - a,
          estado := EstadoBien.EN_USO,
          responsable_actual := some u } ∈
          (updKey Asset.id { bien with
              estado := EstadoBien.EN_USO,
              responsable_actual := some u } σ.assets).map Asset.id := by
        rw [updKey_map_key]
        show bien.id ∈ σ.assets.map Asset.id
        exact List.mem_map_of_mem Asset.id hmem
      exact findKey_updKey_self Asset.id _ _ hm
    have hstock₂ : ¬ ({ bien with
        cantidad := bien.cantidad - a,
        estado := EstadoBien.EN_USO,
        responsable_actual := some u } : Asset).cantidad < normCantidad (some b) := by
      rw [hnb]
      show ¬ bien.cantidad - a < b
      omega
    have hae₂ : findAsignacionActiva
        (saveAsset { bien with
            cantidad := bien.cantidad - a,
            estado := EstadoBien.EN_USO,
            responsable_actual := some u }
          (saveAsset { bien with
              estado := EstadoBien.EN_USO,
              responsable_actual := some u }
            (insertAsignacion (nuevaAsignacion σ B u t₁ a obs₁ fdp₁ now₁) σ))) B u
        = some (nuevaAsignacion σ B u t₁ a obs₁ fdp₁ now₁) := by
      show (σ.asignaciones ++ [nuevaAsignacion σ B u t₁ a obs₁ fdp₁ now₁]).find?
          (fun x => x.bien_id == B && x.usuario_id == u &&
            x.estado == EstadoAsignacion.ACTIVA) = _
      rw [List.find?_append]
      have h1 : σ.asignaciones.find?
          (fun x => x.bien_id == B && x.usuario_id == u &&
            x.estado == EstadoAsignacion.ACTIVA) = none := hae
      rw [h1, Option.none_or]
      exact List.find?_cons_of_pos _ (by simp [nuevaAsignacion])
    rw [crearAsignacion_consolida _ B u t₂ (some b) obs₂ fdp₂ now₂ _ _ hb₂ hu ht₂
      hstock₂ hae₂]
    simp only [hnb]
    show ((updKey AssetAssignment.id
        (asgConsolidada (nuevaAsignacion σ B u t₁ a obs₁ fdp₁ now₁) b obs₂ fdp₂)
        (σ.asignaciones ++ [nuevaAsignacion σ B u t₁ a obs₁ fdp₁ now₁])).filter
      (fun x => x.bien_id == B && x.usuario_id == u &&
        x.estado == EstadoAsignacion.ACTIVA)).map AssetAssignment.cantidad_asignada
      = [a + b]
    have hupd : updKey AssetAssignment.id
        (asgConsolidada (nuevaAsignacion σ B u t₁ a obs₁ fdp₁ now₁) b obs₂ fdp₂)
        (σ.asignaciones ++ [nuevaAsignacion σ B u t₁ a obs₁ fdp₁ now₁])
        = σ.asignaciones ++
          [asgConsolidada (nuevaAsignacion σ B u t₁ a obs₁ fdp₁ now₁) b obs₂ fdp₂] := by
      show (σ.asignaciones ++ [nuevaAsignacion σ B u t₁ a obs₁ fdp₁ now₁]).map _ = _
      rw [List.map_append]
      congr 1
      · have h2 := updKey_eq_of_not_mem AssetAssignment.id
          (asgConsolidada (nuevaAsignacion σ B u t₁ a obs₁ fdp₁ now₁) b obs₂ fdp₂)
          σ.asignaciones
          (fun x hx hxe => by
            have hlt := hwf.2.2.1 x hx
            have : x.id = σ.next_asg_id := hxe
            omega)
        exact h2
      · show [if (AssetAssignment.id (nuevaAsignacion σ B u t₁ a obs₁ fdp₁ now₁) ==
            AssetAssignment.id (asgConsolidada (nuevaAsignacion σ B u t₁ a obs₁ fdp₁ now₁)
              b obs₂ fdp₂)) = true then
            asgConsolidada (nuevaAsignacion σ B u t₁ a obs₁ fdp₁ now₁) b obs₂ fdp₂
          else nuevaAsignacion σ B u t₁ a obs₁ fdp₁ now₁] = _
        have hid : (AssetAssignment.id (nuevaAsignacion σ B u t₁ a obs₁ fdp₁ now₁) ==
            AssetAssignment.id (asgConsolidada (nuevaAsignacion σ B u t₁ a obs₁ fdp₁ now₁)
              b obs₂ fdp₂)) = true := beq_iff_eq.mpr rfl
        rw [if_pos hid]
    rw [hupd, List.filter_append]
    have hfil : σ.asignaciones.filter
        (fun x => x.bien_id == B && x.usuario_id == u &&
          x.estado == EstadoAsignacion.ACTIVA) = [] := by
      rw [List.filter_eq_nil_iff]
      intro x hx
      exact List.find?_eq_none.mp hae x hx
    rw [hfil, List.nil_append]
    show ((List.filter _ [asgConsolidada (nuevaAsignacion σ B u t₁ a obs₁ fdp₁ now₁)
      b obs₂ fdp₂]).map AssetAssignment.cantidad_asignada) = [a + b]
    rw [List.filter_cons, if_pos (by simp [asgConsolidada, nuevaAsignacion])]
    rfl
  · intro σ L u a b fd₁ fd₂ obs₁ obs₂ act₁ act₂ now₁ now₂ libro hwf hl hu hpe ha hbpos hab
    have hLid : libro.id = L := findKey_key hl
    have hmem : libro ∈ σ.libros := findKey_mem hl
    have hstock₁ : ¬ libro.cantidad < a := by omega
    rw [crearPrestamo_nuevo σ L u a fd₁ obs₁ act₁ now₁ libro (by omega) hl hu hstock₁ hpe]
    have hl₂ : findLibro
        (saveLibro { libro with cantidad := libro.cantidad - a }
          (insertPrestamo (nuevoPrestamo σ L u a fd₁ obs₁ act₁ now₁) σ)) L
        = some { libro with cantidad := libro.cantidad - a } := by
      show findKey Libro.id L
          (updKey Libro.id { libro with cantidad := libro.cantidad - a } σ.libros) = _
      rw [← hLid]
      have hm : Libro.id { libro with cantidad := libro.cantidad - a } ∈
          σ.libros.map Libro.id := by
        show libro.id ∈ σ.libros.map Libro.id
        exact List.mem_map_of_mem Libro.id hmem
      exact findKey_updKey_self Libro.id _ _ hm
    have hstock₂ : ¬ ({ libro with cantidad := libro.cantidad - a } : Libro).cantidad < b := by
      show ¬ libro.cantidad - a < b
      omega
    have hpe₂ : findPrestamoActivo
        (saveLibro { libro with cantidad := libro.cantidad - a }
          (insertPrestamo (nuevoPrestamo σ L u a fd₁ obs₁ act₁ now₁) σ)) u L
        = some (nuevoPrestamo σ L u a fd₁ obs₁ act₁ now₁) := by
      show (σ.prestamos ++ [nuevoPrestamo σ L u a fd₁ obs₁ act₁ now₁]).find?
          (fun x => x.usuario_id == u && x.libro_id == L && !x.devuelto) = _
      rw [List.find?_append]
      have h1 : σ.prestamos.find?
          (fun x => x.usuario_id == u && x.libro_id == L && !x.devuelto) = none := hpe
      rw [h1, Option.none_or]
      exact List.find?_cons_of_pos _ (by simp [nuevoPrestamo])
    rw [crearPrestamo_consolida _ L u b fd₂ obs₂ act₂ now₂ _ _ (by omega) hl₂ hu
      hstock₂ hpe₂]
    show ((updKey PrestamoLibro.id
        (prestamoConsolidado (nuevoPrestamo σ L u a fd₁ obs₁ act₁ now₁) b obs₂ now₂)
        (σ.prestamos ++ [nuevoPrestamo σ L u a fd₁ obs₁ act₁ now₁])).filter
      (fun x => x.usuario_id == u && x.libro_id == L && !x.devuelto)).map
      PrestamoLibro.cantidad = [a + b]
    have hupd : updKey PrestamoLibro.id
        (prestamoConsolidado (nuevoPrestamo σ L u a fd₁ obs₁ act₁ now₁) b obs₂ now₂)
        (σ.prestamos ++ [nuevoPrestamo σ L u a fd₁ obs₁ act₁ now₁])
        = σ.prestamos ++
          [prestamoConsolidado (nuevoPrestamo σ L u a fd₁ obs₁ act₁ now₁) b obs₂ now₂] := by
      show (σ.prestamos ++ [nuevoPrestamo σ L u a fd₁ obs₁ act₁ now₁]).map _ = _
      rw [List.map_append]
      congr 1
      · exact updKey_eq_of_not_mem PrestamoLibro.id
          (prestamoConsolidado (nuevoPrestamo σ L u a fd₁ obs₁ act₁ now₁) b obs₂ now₂)
          σ.prestamos
          (fun x hx hxe => by
            have hlt := hwf.2.2.2.2 x hx
            have : x.id = σ.next_prestamo_id := hxe
            omega)
      · show [if (PrestamoLibro.id (nuevoPrestamo σ L u a fd₁ obs₁ act₁ now₁) ==
            PrestamoLibro.id (prestamoConsolidado
              (nuevoPrestamo σ L u a fd₁ obs₁ act₁ now₁) b obs₂ now₂)) = true then
            prestamoConsolidado (nuevoPrestamo σ L u a fd₁ obs₁ act₁ now₁) b obs₂ now₂
          else nuevoPrestamo σ L u a fd₁ obs₁ act₁ now₁] = _
        have hid : (PrestamoLibro.id (nuevoPrestamo σ L u a fd₁ obs₁ act₁ now₁) ==
            PrestamoLibro.id (prestamoConsolidado
              (nuevoPrestamo σ L u a fd₁ obs₁ act₁ now₁) b obs₂ now₂)) = true :=
          beq_iff_eq.mpr rfl
        rw [if_pos hid]
    rw [hupd, List.filter_append]
    have hfil : σ.prestamos.filter
        (fun x => x.usuario_id == u && x.libro_id == L && !x.devuelto) = [] := by
      rw [List.filter_eq_nil_iff]
      intro x hx
      exact List.find?_eq_none.mp hpe x hx
    rw [hfil, List.nil_append]
    show ((List.filter _ [prestamoConsolidado (nuevoPrestamo σ L u a fd₁ obs₁ act₁ now₁)
      b obs₂ now₂]).map PrestamoLibro.cantidad) = [a + b]
    rw [List.filter_cons, if_pos (by simp [prestamoConsolidado, nuevoPrestamo])]
    rfl

/-- Witness for C4 on `σEj`: granting 2 then 1 to user 7 yields a single
active record of quantity 3, for the asset and the book alike. -/
theorem claim_C4_witness :
    (((crearAsignacion (crearAsignacion σEj 1 7 "PRESTAMO" (some 2) none none 100).2
        1 7 "PRESTAMO" (some 1) none none 101).2.asignaciones.filter
      (fun x => x.bien_id == 1 && x.usuario_id == 7 &&
        x.estado == EstadoAsignacion.ACTIVA)).map
      AssetAssignment.cantidad_asignada = [3]) ∧
    (((crearPrestamo (crearPrestamo σEj 1 7 2 none none 9 100).2
        1 7 1 none none 9 101).2.prestamos.filter
      (fun x => x.usuario_id == 7 && x.libro_id == 1 && !x.devuelto)).map
      PrestamoLibro.cantidad = [3]) := by
  constructor
  · have h := claim_C4.1 σEj 1 7 "PRESTAMO" "PRESTAMO" 2 1 none none none none 100 101
      { id := 1, codigo_inventario := "B1", cantidad := 5,
        estado := EstadoBien.DISPONIBLE, responsable_actual := none }
      (by decide) rfl rfl rfl rfl rfl (by decide) (by decide) (by decide)
    exact h
  · have h := claim_C4.2 σEj 1 7 2 1 none none none none 9 9 100 101
      { id := 1, cantidad := 5 }
      (by decide) rfl rfl rfl (by decide) (by decide) (by decide)
    exact h


end Colegio
